import Mathlib

/-!
Verification of the GHN shipping-quote calculator (`calculator.py`, `app.py`).

Python floats are modelled as exact rationals (`ℚ`), Python exceptions as an
explicit `Except` discipline, and the incrementally built `results` dictionary
as a structure of `Option` fields.  String inputs carry the outcome of the
stdlib numeric parses (`float(s)` / `int(s)`) as data, since the parsers
themselves are Python library code, external to this repository.
-/

attribute [local semireducible] Rat.add Rat.mul Rat.sub Rat.inv Rat.ofScientific

/-- Decidable equality of `Except` values, for evaluating lookup results on
concrete inputs. -/
instance {ε α : Type} [DecidableEq ε] [DecidableEq α] : DecidableEq (Except ε α) := fun x y =>
  match x, y with
  | .ok a, .ok b =>
      if h : a = b then .isTrue (by rw [h]) else .isFalse (by intro hc; cases hc; exact h rfl)
  | .error e, .error f =>
      if h : e = f then .isTrue (by rw [h]) else .isFalse (by intro hc; cases hc; exact h rfl)
  | .ok _, .error _ => .isFalse (by intro hc; cases hc)
  | .error _, .ok _ => .isFalse (by intro hc; cases hc)

namespace GHN

/-- Python runtime values that can reach the numeric inputs of
`calculate_shipping_rate`: a number, a string (tagged with the results of
`float(s)` and `int(s)`, `none` meaning the parse raises `ValueError`),
or `None`. -/
inductive PyVal where
  | numV (q : ℚ)
  | strV (floatParse : Option ℚ) (intParse : Option ℤ) (s : String)
  | noneV
deriving DecidableEq

/-- Python exception kinds raised inside the modelled code. -/
inductive PyExc where
  | valErr (msg : String)
  | typeErr (msg : String)
  | keyErr (key : String)
  | otherErr (msg : String)
  | attrErr (name : String)
deriving DecidableEq

/-- Structured error descriptors of `calculate_shipping_rate`: the strings
built at calculator.py lines 242-247 ("Lỗi giá trị đầu vào", "Lỗi cấu hình:
Thiếu khóa ...", "Lỗi hệ thống"), kept as tagged payloads. -/
inductive PyErr where
  | validationError (msg : String)
  | configError (key : String)
  | systemError (msg : String)
deriving DecidableEq

/-- The except-clauses of `calculate_shipping_rate` (lines 242-247):
`ValueError`/`TypeError` become the validation error, `KeyError` the
configuration error, any other exception the system error. -/
def convertExc : PyExc → PyErr
  | .valErr m => .validationError m
  | .typeErr m => .validationError m
  | .keyErr k => .configError k
  | .otherErr m => .systemError m
  | .attrErr n => .systemError n

/-- Python `float(x)` on a modelled value. -/
def float_ : PyVal → Except PyExc ℚ
  | .numV q => .ok q
  | .strV (some q) _ _ => .ok q
  | .strV none _ s => .error (.valErr ("could not convert string to float: " ++ s))
  | .noneV => .error (.typeErr "float() argument must be a string or a real number, not NoneType")

/-- Truncation toward zero, the behaviour of Python `int` on a float. -/
def intTrunc (q : ℚ) : ℤ :=
  if 0 ≤ q then ⌊q⌋ else -⌊-q⌋

/-- Python `int(x)` on a modelled value. -/
def int_ : PyVal → Except PyExc ℤ
  | .numV q => .ok (intTrunc q)
  | .strV _ (some n) _ => .ok n
  | .strV _ none s => .error (.valErr ("invalid literal for int() with base 10: " ++ s))
  | .noneV => .error (.typeErr "int() argument must be a string or a real number, not NoneType")

/-- Python `float(x)` outcome as an `Option`, for code that catches the
conversion failure itself (`calculate_weight_from_dimensions`). -/
def floatOpt : PyVal → Option ℚ
  | .numV q => some q
  | .strV p _ _ => p
  | .noneV => none

/-- Python `x or 0` on a modelled value: falsy values (`None`, `0`, the empty
string) become the number 0, anything else is kept. -/
def orZero : PyVal → PyVal
  | .noneV => .numV 0
  | .numV q => if q = 0 then .numV 0 else .numV q
  | .strV p i s => if s = "" then .numV 0 else .strV p i s

/-- Python `a > b` on modelled values: numbers compare numerically, strings
lexicographically, and a mixed comparison raises `TypeError`. -/
def pyGt : PyVal → PyVal → Except PyExc Bool
  | .numV a, .numV b => .ok (decide (b < a))
  | .strV _ _ a, .strV _ _ b => .ok (decide (b < a))
  | _, _ => .error (.typeErr "'>' not supported between instances of these types")

/-- Python `max([a, b, c])`: keeps the current maximum, comparing each later
element against it with `>` (CPython iteration order). -/
def pymax3 (a b c : PyVal) : Except PyExc PyVal := do
  let m1 := if (← pyGt b a) then b else a
  let m2 := if (← pyGt c m1) then c else m1
  pure m2

/-- Python `str.lower()`, restricted to ASCII case mapping.  No non-ASCII
character lowercases to an ASCII one in the comparisons the code performs
(the only compared literal is the ASCII string "tp vinh"), so equality
outcomes agree with CPython. -/
def pyLower (s : String) : String := String.mk (s.data.map Char.toLower)

/-- Python `str.strip()`: drop leading and trailing whitespace (modelled with
the ASCII whitespace set of `Char.isWhitespace`). -/
def pyStrip (s : String) : String :=
  String.mk ((((s.data.dropWhile Char.isWhitespace).reverse).dropWhile
    Char.isWhitespace).reverse)

/-- Python `round(x)` to an integer: round half to even (banker's rounding),
on the value modelled as an exact rational. -/
def pyRound (q : ℚ) : ℤ :=
  if q - ⌊q⌋ < 1/2 then ⌊q⌋
  else if 1/2 < q - ⌊q⌋ then ⌊q⌋ + 1
  else if ⌊q⌋ % 2 = 0 then ⌊q⌋ else ⌊q⌋ + 1

/-- Monetary rounding as applied in place in the results dict (the rounded
integer, viewed back as a number). -/
def pyRoundQ (q : ℚ) : ℚ := (pyRound q : ℚ)

/-- Python `round(x, 2)`. -/
def round2 (q : ℚ) : ℚ := (pyRound (100 * q) : ℚ) / 100

/-- The `constants` sub-dictionary of the configuration; `none` models a
missing key (access raises `KeyError`). -/
structure Constants where
  full_vehicle_rate : Option ℚ
  delivery_vinh_base : Option ℚ
  delivery_vinh_rate : Option ℚ
  vol_weight_factor : Option ℚ
deriving DecidableEq

/-- The embedded configuration dictionary of `ShippingCalculator`; each field
`none` models the corresponding top-level key being absent.  Coefficient
dictionaries are association lists (keys are unique in the source dict).
`zone_mapping` is accessed only through `config.get` in code outside the
claims and is omitted. -/
structure Config where
  km_coefficients : Option (List (ℚ × ℚ))
  zone_coefficients : Option (List (String × ℚ))
  goods_coefficients : Option (List (String × ℚ))
  vehicle_coefficients : Option (List (String × ℚ))
  size_coefficients : Option (List (ℚ × ℚ))
  constants : Option Constants
deriving DecidableEq

/-- Python `d[key]`: raises `KeyError` when the key is absent. -/
def getKey {α : Type} (entry : Option α) (key : String) : Except PyExc α :=
  match entry with
  | some v => .ok v
  | none => .error (.keyErr key)

/-- The `km_coefficients` table of `DEFAULT_CONFIG` (lines 29-36). -/
def DEFAULT_KM_BANDS : List (ℚ × ℚ) :=
  [(0, 0.35), (50, 0.35), (100, 0.4), (150, 0.45), (200, 0.5), (250, 0.55),
   (300, 0.6), (350, 0.65), (400, 0.7), (450, 0.75), (500, 0.8), (550, 0.825),
   (600, 0.85), (650, 0.875), (700, 0.9), (750, 0.925), (800, 0.95), (850, 0.975),
   (900, 1.0), (950, 1.025), (1000, 1.05), (1100, 1.075), (1200, 1.1), (1300, 1.125),
   (1400, 1.15), (1500, 1.175), (1600, 1.2), (1700, 1.225), (1800, 1.25), (1900, 1.275),
   (2000, 1.3), (2100, 1.325), (2200, 1.35), (2300, 1.375), (2400, 1.4), (2500, 1.6)]

/-- The `size_coefficients` table of `DEFAULT_CONFIG` (lines 58-60). -/
def DEFAULT_SIZE_BANDS : List (ℚ × ℚ) :=
  [(0, 1.0), (200, 1.2), (300, 1.3), (400, 1.4), (600, 1.5), (800, 1.8), (1100, 2.0)]

/-- The `zone_coefficients` table of `DEFAULT_CONFIG` (lines 37-42). -/
def DEFAULT_ZONE_COEFS : List (String × ℚ) :=
  [("Vùng 1", 1.4), ("Vùng 5", 1.3), ("Vùng còn lại", 1.0), ("Vùng huyện đảo", 1.5)]

/-- The `goods_coefficients` table of `DEFAULT_CONFIG` (lines 43-51). -/
def DEFAULT_GOODS_COEFS : List (String × ℚ) :=
  [("Hàng trần VLXD", 0.8), ("Hàng dễ vỡ", 1.5), ("Hàng tiêu dùng", 1.0),
   ("Hàng đông lạnh", 1.5), ("Hàng hóa chất", 1.5), ("Hàng đóng hộp tiêu dùng", 1.0),
   ("Lúa thóc", 0.65)]

/-- The `vehicle_coefficients` table of `DEFAULT_CONFIG` (lines 52-57). -/
def DEFAULT_VEHICLE_COEFS : List (String × ℚ) :=
  [("Tải", 1.0), ("Đầu kéo", 1.25), ("Mooc sàn", 1.5), ("Fooc", 2.25)]

/-- The `constants` dictionary of `DEFAULT_CONFIG` (lines 61-66). -/
def DEFAULT_CONSTANTS : Constants where
  full_vehicle_rate := some 4076.05
  delivery_vinh_base := some 5445000
  delivery_vinh_rate := some 0.18
  vol_weight_factor := some 6000

/-- The `DEFAULT_CONFIG` class attribute of `ShippingCalculator`
(calculator.py lines 28-82). -/
def DEFAULT_CONFIG : Config where
  km_coefficients := some DEFAULT_KM_BANDS
  zone_coefficients := some DEFAULT_ZONE_COEFS
  goods_coefficients := some DEFAULT_GOODS_COEFS
  vehicle_coefficients := some DEFAULT_VEHICLE_COEFS
  size_coefficients := some DEFAULT_SIZE_BANDS
  constants := some DEFAULT_CONSTANTS

/-- Python `sorted(bands, key=lambda x: x[0])`: a stable sort by the first
component.  Any two stable sorts by the same key compute the same function,
so `insertionSort` models CPython's Timsort faithfully. -/
def sortPairs (l : List (ℚ × ℚ)) : List (ℚ × ℚ) :=
  List.insertionSort (fun a b => a.1 ≤ b.1) l

/-- First element's coefficient, `coeffs[0][1]`; on an empty table Python
raises `IndexError` (caught by the generic `except Exception`). -/
def bandFirst (bands : List (ℚ × ℚ)) : Except PyExc ℚ :=
  match bands with
  | [] => .error (.otherErr "list index out of range")
  | b :: _ => .ok b.2

/-- The lookup loop shared by `get_km_coefficient` and `get_size_coefficient`:
keep updating the accumulator while `value >= threshold`, stop at the first
band whose threshold exceeds the value (`break`). -/
def bandScan (v : ℚ) : ℚ → List (ℚ × ℚ) → ℚ
  | acc, [] => acc
  | acc, (t, c) :: rest => if t ≤ v then bandScan v c rest else acc

/-- Method `get_km_coefficient` (calculator.py lines 90-99). -/
def get_km_coefficient (cfg : Config) (distance : ℚ) : Except PyExc ℚ := do
  let raw ← getKey cfg.km_coefficients "km_coefficients"
  let coeffs := sortPairs raw
  let init ← bandFirst coeffs
  pure (bandScan distance init coeffs)

/-- Method `get_zone_coefficient` (lines 101-103): `dict.get` with default
1.0, inside a `[...]` access to the zone table. -/
def get_zone_coefficient (cfg : Config) (zone_name : String) : Except PyExc ℚ := do
  let d ← getKey cfg.zone_coefficients "zone_coefficients"
  pure ((d.lookup zone_name).getD 1)

/-- Method `get_goods_coefficient` (lines 105-107). -/
def get_goods_coefficient (cfg : Config) (goods_type : String) : Except PyExc ℚ := do
  let d ← getKey cfg.goods_coefficients "goods_coefficients"
  pure ((d.lookup goods_type).getD 1)

/-- Method `get_vehicle_coefficient` (lines 109-111). -/
def get_vehicle_coefficient (cfg : Config) (vehicle_type : String) : Except PyExc ℚ := do
  let d ← getKey cfg.vehicle_coefficients "vehicle_coefficients"
  pure ((d.lookup vehicle_type).getD 1)

/-- Method `get_size_coefficient` (lines 113-123): `max_dim = max_dimension
or 0`, then the same sorted-table scan; a string `max_dim` makes the first
`>=` comparison raise `TypeError`. -/
def get_size_coefficient (cfg : Config) (max_dimension : PyVal) : Except PyExc ℚ := do
  let md := orZero max_dimension
  let raw ← getKey cfg.size_coefficients "size_coefficients"
  let coeffs := sortPairs raw
  let init ← bandFirst coeffs
  match md with
  | .numV q => pure (bandScan q init coeffs)
  | _ => .error (.typeErr "'>=' not supported between instances of these types")

/-- Method `get_base_rate` (lines 125-134): the four weight brackets. -/
def get_base_rate (chargeable_weight_kg : ℚ) : ℚ :=
  if chargeable_weight_kg < 1000 then 5230.78
  else if chargeable_weight_kg < 3000 then 3130.78
  else if chargeable_weight_kg < 10000 then 2180.78
  else 1200.78

/-- Method `calculate_weight_from_dimensions` (lines 136-148): 0 when any
dimension is `None` or fails float conversion; otherwise l*w*h divided by the
factor (reset to 6000 when non-positive). -/
def calculate_weight_from_dimensions (length width height : PyVal) (factor : ℚ) : ℚ :=
  if length = .noneV ∨ width = .noneV ∨ height = .noneV then 0
  else
    match floatOpt length, floatOpt width, floatOpt height with
    | some l, some w, some h =>
        let f := if factor ≤ 0 then 6000 else factor
        (l * w * h) / f
    | _, _, _ => 0

/-- The `coefficients` sub-dictionary of the results (lines 200-207). -/
structure Coefficients where
  km : ℚ
  zone : ℚ
  goods : ℚ
  vehicle : ℚ
  size : ℚ
  proposed : ℚ
deriving DecidableEq

/-- The `results` dictionary built incrementally by `calculate_shipping_rate`;
`none` models a key not (yet) present. -/
structure Results where
  error : Option PyErr := none
  chargeable_weight : Option ℚ := none
  volumetric_weight : Option ℚ := none
  actual_weight : Option ℚ := none
  coefficients : Option Coefficients := none
  base_freight : Option ℚ := none
  delivery_fee : Option ℚ := none
  total_cost : Option ℚ := none
  shared_vehicle_cost : Option ℚ := none
  full_vehicle_cost : Option ℚ := none
  customer_price : Option ℚ := none
deriving DecidableEq

/-- Try/except step: on an exception the enclosing handler receives the
results dictionary as built so far and records the converted error in it;
otherwise the computation continues. -/
def step {α : Type} (r : Results) (x : Except PyExc α) (k : α → Results) : Results :=
  match x with
  | .error e => { r with error := some (convertExc e) }
  | .ok a => k a

/-- The rounding loop of lines 239-240: the six monetary entries are replaced
in place by their rounded values. -/
def roundMonetary (r : Results) : Results :=
  { r with base_freight := r.base_freight.map pyRoundQ
           delivery_fee := r.delivery_fee.map pyRoundQ
           total_cost := r.total_cost.map pyRoundQ
           shared_vehicle_cost := r.shared_vehicle_cost.map pyRoundQ
           full_vehicle_cost := r.full_vehicle_cost.map pyRoundQ
           customer_price := r.customer_price.map pyRoundQ }

/-- Lines 183-185: `max(actual_weight_total, vol_weight_total)` when the
volumetric total is positive, else the actual total; a non-positive result is
clamped to 1. -/
def chargeableWeight (actual_weight_total vol_weight_total : ℚ) : ℚ :=
  let cw0 := if 0 < vol_weight_total then max actual_weight_total vol_weight_total
             else actual_weight_total
  if cw0 ≤ 0 then 1 else cw0

/-- Tail of `calculate_shipping_rate` after the delivery fee is known
(lines 220-240): totals, shared/full vehicle prices, customer price, then
the rounding loop. -/
def finishCalc (cfg : Config) (r3 : Results)
    (chargeable_weight km_coef max_zone_coef goods_coef vehicle_coef
     proposed_coef base_freight delivery_fee : ℚ) : Results :=
  let r4 := { r3 with delivery_fee := some delivery_fee }
  let total_cost := base_freight + delivery_fee
  let r5 := { r4 with total_cost := some total_cost }
  let shared_vehicle_cost := base_freight * 0.9
  let r6 := { r5 with shared_vehicle_cost := some shared_vehicle_cost }
  step r6 (getKey cfg.constants "constants") fun consts =>
  step r6 (getKey consts.full_vehicle_rate "full_vehicle_rate") fun full_vehicle_rate =>
  let full_vehicle_cost := chargeable_weight * km_coef * max_zone_coef * goods_coef *
    vehicle_coef * proposed_coef * full_vehicle_rate
  let r7 := { r6 with full_vehicle_cost := some full_vehicle_cost
                      customer_price := some total_cost }
  roundMonetary r7

/-- Method `calculate_shipping_rate` (calculator.py lines 161-249), with the
try/except of lines 171-247 modelled by `step`: the first exception stops the
computation and records the converted error next to the fields already set. -/
def calculate_shipping_rate (cfg : Config)
    (distance_km actual_weight_kg quantity : PyVal)
    (vol_length_cm vol_width_cm vol_height_cm : PyVal)
    (pickup_zone_name delivery_zone_name delivery_point goods_type vehicle_type : String)
    (proposed_coefficient : PyVal) : Results :=
  let r0 : Results := {}
  step r0 (float_ distance_km) fun distance =>
  step r0 (match actual_weight_kg with | .noneV => .ok 0 | v => float_ v) fun actual_weight =>
  step r0 (match quantity with | .noneV => .ok 1 | v => int_ v) fun qty =>
  step r0 (match proposed_coefficient with | .noneV => .ok 1 | v => float_ v) fun proposed_coef =>
  step r0 (getKey cfg.constants "constants") fun consts =>
  step r0 (getKey consts.vol_weight_factor "vol_weight_factor") fun factor =>
  let vol_weight := calculate_weight_from_dimensions vol_length_cm vol_width_cm vol_height_cm factor
  let vol_weight_total := vol_weight * (qty : ℚ)
  let actual_weight_total := actual_weight * (qty : ℚ)
  let chargeable_weight := chargeableWeight actual_weight_total vol_weight_total
  let r1 := { r0 with chargeable_weight := some chargeable_weight
                      volumetric_weight := some vol_weight_total
                      actual_weight := some actual_weight_total }
  step r1 (get_km_coefficient cfg distance) fun km_coef =>
  step r1 (get_zone_coefficient cfg pickup_zone_name) fun pickup_zone_coef =>
  step r1 (get_zone_coefficient cfg delivery_zone_name) fun delivery_zone_coef =>
  step r1 (get_goods_coefficient cfg goods_type) fun goods_coef =>
  step r1 (get_vehicle_coefficient cfg vehicle_type) fun vehicle_coef =>
  step r1 (pymax3 (orZero vol_length_cm) (orZero vol_width_cm) (orZero vol_height_cm)) fun maxDim =>
  step r1 (get_size_coefficient cfg maxDim) fun size_coef =>
  let max_zone_coef := max pickup_zone_coef delivery_zone_coef
  let c : Coefficients :=
    ⟨km_coef, max_zone_coef, goods_coef, vehicle_coef, size_coef, proposed_coef⟩
  let r2 := { r1 with coefficients := some c }
  let base_rate := get_base_rate chargeable_weight
  let base_freight := chargeable_weight * km_coef * max_zone_coef * goods_coef *
    size_coef * proposed_coef * base_rate
  let r3 := { r2 with base_freight := some base_freight }
  if delivery_point ≠ "" ∧ pyStrip (pyLower delivery_point) = "tp vinh" then
    step r3 (getKey cfg.constants "constants") fun consts2 =>
    step r3 (getKey consts2.delivery_vinh_base "delivery_vinh_base") fun dvb =>
    step r3 (getKey consts2.delivery_vinh_rate "delivery_vinh_rate") fun dvr =>
    finishCalc cfg r3 chargeable_weight km_coef max_zone_coef goods_coef vehicle_coef
      proposed_coef base_freight (dvb * dvr)
  else
    finishCalc cfg r3 chargeable_weight km_coef max_zone_coef goods_coef vehicle_coef
      proposed_coef base_freight 0

/-- Shape of the results dictionary on the success path under the default
configuration, given the chargeable/volumetric/actual weights, the six
coefficients and the (unrounded) delivery fee; 4076.05 is the default
`full_vehicle_rate`. -/
def buildResults (cw vwt awt km zone goods vehicle size pc fee : ℚ) : Results :=
  let base_rate := get_base_rate cw
  let bf := cw * km * zone * goods * size * pc * base_rate
  let total := bf + fee
  let fv := cw * km * zone * goods * vehicle * pc * 4076.05
  { error := none
    chargeable_weight := some cw
    volumetric_weight := some vwt
    actual_weight := some awt
    coefficients := some ⟨km, zone, goods, vehicle, size, pc⟩
    base_freight := some (pyRoundQ bf)
    delivery_fee := some (pyRoundQ fee)
    total_cost := some (pyRoundQ total)
    shared_vehicle_cost := some (pyRoundQ (bf * 0.9))
    full_vehicle_cost := some (pyRoundQ fv)
    customer_price := some (pyRoundQ total) }

/-- The error slot is empty or holds one of the three structured error
kinds. -/
def errOk (o : Option PyErr) : Prop :=
  o = none ∨ (∃ m, o = some (.validationError m)) ∨
  (∃ k, o = some (.configError k)) ∨ (∃ m, o = some (.systemError m))

/-- A structured caller's optional numeric field (a float or `None`), as the
GUI form and `process_query` pass dimensions into `calculate_shipping_rate`. -/
def pyOfOpt : Option ℚ → PyVal
  | none => .noneV
  | some q => .numV q

/-- Volumetric weight of optional dimensions at the default divisor 6000:
the product over 6000 when all three are present, otherwise 0. -/
def dimWeight (dL dW dH : Option ℚ) : ℚ :=
  match dL, dW, dH with
  | some l, some w, some h => l * w * h / 6000
  | _, _, _ => 0

/-- Outcomes of the ten independent `re.search` scans of `parse_user_query`
(calculator.py lines 339-410), one per extracted field: `none` means the
pattern found no match, `some` carries the captured groups (numeric groups
already parsed, as the patterns only admit digit strings, with the comma
decimal separator normalised to a period).  The regex engine itself is
Python stdlib, external to the repository, so it is abstracted as this
match-outcome record; every combination below is realised by some input
text because the ten scans are independent. -/
structure MatchOutcomes where
  from_match : Option String
  to_match : Option String
  delivery_match : Option String
  weight_match : Option (ℚ × String)
  quantity_match : Option ℕ
  dim_match : Option (ℚ × ℚ × ℚ)
  distance_match : Option ℚ
  goods_match : Option String
  vehicle_match : Option String
  coef_match : Option ℚ

/-- The extractor's result dictionary (lines 330-335). -/
structure ParsedQuery where
  from_location : Option String := none
  to_location : Option String := none
  delivery_point : Option String := none
  weight : Option ℚ := none
  dim_length : Option ℚ := none
  dim_width : Option ℚ := none
  dim_height : Option ℚ := none
  quantity : ℕ := 1
  distance : Option ℚ := none
  goods_type : Option String := none
  vehicle_type : Option String := none
  proposed_coefficient : ℚ := 1
  confidence : ℚ := 0

/-- An `if match:` block of the extractor: when the scan found something the
captured groups update the result, otherwise the result is unchanged. -/
def applyMatch {α : Type} (o : Option α) (f : α → ParsedQuery) (r : ParsedQuery) :
    ParsedQuery :=
  match o with
  | some g => f g
  | none => r

/-- Method `parse_user_query` (lines 326-413) over the match outcomes: each
matched field is stored (stripped where the code strips) and adds its fixed
confidence increment, in source order; the confidence is finally rounded to
two decimals. -/
def parse_user_query (m : MatchOutcomes) : ParsedQuery :=
  let r : ParsedQuery := {}
  let r := applyMatch m.from_match (fun g =>
    { r with from_location := some (pyStrip g), confidence := r.confidence + 0.2 }) r
  let r := applyMatch m.to_match (fun g =>
    { r with to_location := some (pyStrip g), confidence := r.confidence + 0.2 }) r
  let r := applyMatch m.delivery_match (fun g =>
    { r with delivery_point := some (pyStrip g), confidence := r.confidence + 0.1 }) r
  let r := applyMatch m.weight_match (fun gu =>
    { r with weight := some (if gu.2 = "tấn" then gu.1 * 1000 else gu.1)
             confidence := r.confidence + 0.2 }) r
  let r := applyMatch m.quantity_match (fun n =>
    { r with quantity := n, confidence := r.confidence + 0.1 }) r
  let r := applyMatch m.dim_match (fun lwh =>
    { r with dim_length := some lwh.1, dim_width := some lwh.2.1,
             dim_height := some lwh.2.2, confidence := r.confidence + 0.15 }) r
  let r := applyMatch m.distance_match (fun q =>
    { r with distance := some q, confidence := r.confidence + 0.2 }) r
  let r := applyMatch m.goods_match (fun g =>
    { r with goods_type := some (pyStrip g), confidence := r.confidence + 0.1 }) r
  let r := applyMatch m.vehicle_match (fun g =>
    { r with vehicle_type := some (pyStrip g), confidence := r.confidence + 0.1 }) r
  let r := applyMatch m.coef_match (fun q =>
    { r with proposed_coefficient := q, confidence := r.confidence + 0.1 }) r
  { r with confidence := round2 r.confidence }

/-- The attributes defined on `ShippingCalculator` (class body, calculator.py
lines 22-413, plus the instance attribute set in `__init__`); Python
attribute lookup on a calculator instance succeeds exactly for these
names. -/
def shippingCalculatorAttrs : List String :=
  ["DEFAULT_CONFIG", "config", "get_km_coefficient", "get_zone_coefficient",
   "get_goods_coefficient", "get_vehicle_coefficient", "get_size_coefficient",
   "get_base_rate", "calculate_weight_from_dimensions", "get_zone_name_from_loc",
   "calculate_shipping_rate", "format_price", "process_query", "parse_user_query"]

/-- JSON body of a POST to `/baogia`: each field either absent (so that
`data.get` returns the default) or a value. -/
structure BaogiaRequest where
  loaihang : Option PyVal
  diemnhan : Option PyVal
  diemgiao : Option PyVal
  km : Option PyVal
  sokien : Option PyVal
  trongluong : Option PyVal

/-- The `/baogia` handler of app.py (lines 8-33): coerces `km`, `sokien` and
`trongluong`, then looks up the attribute `calculate_cost` on the calculator.
The success value is `Unit` because the success branch is unreachable: the
attribute is absent from `ShippingCalculator`, so the lookup raises
`AttributeError` whenever it is reached. -/
def baogia (req : BaogiaRequest) : Except PyExc Unit := do
  let _km ← float_ (req.km.getD (.numV 0))
  let _sokien ← int_ (req.sokien.getD (.numV 1))
  let _trongluong ← float_ (req.trongluong.getD (.numV 0))
  if "calculate_cost" ∈ shippingCalculatorAttrs then
    pure ()
  else
    throw (.attrErr "calculate_cost")

/-! Lemmas about the shared band-lookup loop. -/

theorem step_ok {α : Type} (r : Results) (a : α) (k : α → Results) :
    step r (.ok a) k = k a := rfl

theorem step_error {α : Type} (r : Results) (e : PyExc) (k : α → Results) :
    step r (.error e) k = { r with error := some (convertExc e) } := rfl

theorem sortPairs_eq_self {l : List (ℚ × ℚ)}
    (h : List.Sorted (fun a b : ℚ × ℚ => a.1 ≤ b.1) l) : sortPairs l = l :=
  h.insertionSort_eq

theorem orZero_numV (v : ℚ) : orZero (.numV v) = .numV v := by
  unfold orZero; split <;> simp_all

theorem bandScan_of_forall_lt {v : ℚ} {bands : List (ℚ × ℚ)} (init : ℚ)
    (h : ∀ b ∈ bands, v < b.1) : bandScan v init bands = init := by
  cases bands with
  | nil => rfl
  | cons b rest =>
    have hb : v < b.1 := h b (List.mem_cons_self _ _)
    obtain ⟨t, c⟩ := b
    simp only [bandScan, if_neg (not_le.mpr hb)]

theorem bandScan_last_le {v : ℚ} :
    ∀ (pre : List (ℚ × ℚ)) (t c : ℚ) (post : List (ℚ × ℚ)) (init : ℚ),
    List.Sorted (fun a b : ℚ × ℚ => a.1 ≤ b.1) (pre ++ (t, c) :: post) →
    t ≤ v → (∀ b ∈ post, v < b.1) →
    bandScan v init (pre ++ (t, c) :: post) = c := by
  intro pre
  induction pre with
  | nil =>
    intro t c post init _ htv hpost
    simp only [List.nil_append, bandScan, if_pos htv]
    exact bandScan_of_forall_lt c hpost
  | cons b pre ih =>
    intro t c post init hs htv hpost
    obtain ⟨t0, c0⟩ := b
    have hmem : (t, c) ∈ pre ++ (t, c) :: post := by simp
    have ht0 : t0 ≤ v := by
      have h1 : t0 ≤ t := (List.sorted_cons.mp hs).1 (t, c) hmem
      exact le_trans h1 htv
    simp only [List.cons_append, bandScan, if_pos ht0]
    exact ih t c post c0 (List.sorted_cons.mp hs).2 htv hpost

theorem bandScan_mem (v : ℚ) :
    ∀ (bands : List (ℚ × ℚ)) (init : ℚ),
    bandScan v init bands = init ∨ ∃ b ∈ bands, bandScan v init bands = b.2 := by
  intro bands
  induction bands with
  | nil => intro init; left; rfl
  | cons b rest ih =>
    intro init
    obtain ⟨t, c⟩ := b
    by_cases htv : t ≤ v
    · simp only [bandScan, if_pos htv]
      rcases ih c with h | ⟨b', hb', he⟩
      · right; exact ⟨(t, c), List.mem_cons_self _ _, h⟩
      · right; exact ⟨b', List.mem_cons_of_mem _ hb', he⟩
    · left; simp only [bandScan, if_neg htv]

theorem bandScan_mono {v w : ℚ} (hvw : v ≤ w) :
    ∀ (bands : List (ℚ × ℚ)) (init : ℚ),
    List.Sorted (fun a b : ℚ × ℚ => a.2 ≤ b.2) bands →
    (∀ b ∈ bands, init ≤ b.2) →
    bandScan v init bands ≤ bandScan w init bands := by
  intro bands
  induction bands with
  | nil => intro init _ _; exact le_refl _
  | cons b rest ih =>
    intro init hs hinit
    obtain ⟨t, c⟩ := b
    have hc : init ≤ c := hinit (t, c) (List.mem_cons_self _ _)
    have hrest : ∀ b ∈ rest, c ≤ b.2 := (List.sorted_cons.mp hs).1
    by_cases htv : t ≤ v
    · have htw : t ≤ w := le_trans htv hvw
      simp only [bandScan, if_pos htv, if_pos htw]
      exact ih c (List.sorted_cons.mp hs).2 hrest
    · by_cases htw : t ≤ w
      · simp only [bandScan, if_neg htv, if_pos htw]
        rcases bandScan_mem w rest c with h | ⟨b', hb', he⟩
        · rw [h]; exact hc
        · rw [he]; exact le_trans hc (hrest b' hb')
      · simp only [bandScan, if_neg htv, if_neg htw]; exact le_refl _

theorem bandScan_at_threshold {t c : ℚ} :
    ∀ (bands : List (ℚ × ℚ)) (init : ℚ),
    List.Pairwise (fun a b : ℚ × ℚ => a.1 < b.1) bands →
    (t, c) ∈ bands →
    bandScan t init bands = c := by
  intro bands
  induction bands with
  | nil => intro init _ hmem; exact absurd hmem (List.not_mem_nil _)
  | cons b rest ih =>
    intro init hp hmem
    obtain ⟨t0, c0⟩ := b
    rcases List.mem_cons.mp hmem with heq | hmem'
    · obtain ⟨rfl, rfl⟩ := Prod.mk.injEq .. ▸ And.intro (congrArg Prod.fst heq) (congrArg Prod.snd heq)
      simp only [bandScan, if_pos (le_refl t)]
      exact bandScan_of_forall_lt c fun b hb => (List.pairwise_cons.mp hp).1 b hb
    · have ht0 : t0 < t := (List.pairwise_cons.mp hp).1 (t, c) hmem'
      simp only [bandScan, if_pos (le_of_lt ht0)]
      exact ih c0 (List.pairwise_cons.mp hp).2 hmem'

theorem get_km_coefficient_eq {cfg : Config} {bands : List (ℚ × ℚ)}
    (h : cfg.km_coefficients = some bands) (hne : bands ≠ [])
    (hs : List.Sorted (fun a b : ℚ × ℚ => a.1 ≤ b.1) bands) (v : ℚ) :
    get_km_coefficient cfg v = .ok (bandScan v (bands.head hne).2 bands) := by
  cases bands with
  | nil => exact absurd rfl hne
  | cons b0 rest =>
    simp only [get_km_coefficient, h, getKey, sortPairs_eq_self hs, bandFirst,
      Bind.bind, Except.bind, pure, Except.pure, List.head_cons]

theorem get_size_coefficient_eq {cfg : Config} {bands : List (ℚ × ℚ)}
    (h : cfg.size_coefficients = some bands) (hne : bands ≠ [])
    (hs : List.Sorted (fun a b : ℚ × ℚ => a.1 ≤ b.1) bands) (v : ℚ) :
    get_size_coefficient cfg (.numV v) = .ok (bandScan v (bands.head hne).2 bands) := by
  cases bands with
  | nil => exact absurd rfl hne
  | cons b0 rest =>
    simp only [get_size_coefficient, h, getKey, sortPairs_eq_self hs, bandFirst, orZero_numV,
      Bind.bind, Except.bind, pure, Except.pure, List.head_cons]

theorem head_coef_le_all {bands : List (ℚ × ℚ)} (hne : bands ≠ [])
    (hcoef : List.Sorted (fun a b : ℚ × ℚ => a.2 ≤ b.2) bands) :
    ∀ b ∈ bands, (bands.head hne).2 ≤ b.2 := by
  cases bands with
  | nil => exact absurd rfl hne
  | cons b0 rest =>
    intro b hb
    rcases List.mem_cons.mp hb with rfl | hb'
    · exact le_refl _
    · exact (List.sorted_cons.mp hcoef).1 b hb'

theorem pymax3_mem {a b c m : PyVal} (h : pymax3 a b c = .ok m) :
    m = a ∨ m = b ∨ m = c := by
  unfold pymax3 at h
  rcases h1 : pyGt b a with e1 | b1 <;> rw [h1] at h
  · exact absurd h (by simp [Bind.bind, Except.bind])
  · simp only [Bind.bind, Except.bind] at h
    rcases h2 : pyGt c (if b1 then b else a) with e2 | b2 <;> rw [h2] at h
    · exact absurd h (by simp)
    · simp only [pure, Except.pure, Except.ok.injEq] at h
      subst h
      by_cases hb2 : b2 = true
      · right; right; simp [hb2]
      · simp only [Bool.not_eq_true] at hb2
        by_cases hb1 : b1 = true
        · right; left; simp [hb1, hb2]
        · simp only [Bool.not_eq_true] at hb1
          left; simp [hb1, hb2]

theorem orZero_ne_noneV (v : PyVal) : orZero v ≠ .noneV := by
  cases v <;> simp only [orZero] <;> intro h <;> first
    | exact PyVal.noConfusion h
    | (split at h <;> exact PyVal.noConfusion h)

theorem orZero_str_ne_empty {v : PyVal} {p : Option ℚ} {i : Option ℤ} {s : String}
    (h : orZero v = .strV p i s) : s ≠ "" := by
  cases v with
  | numV q =>
      exfalso; revert h; simp only [orZero]; split <;> intro h <;> exact PyVal.noConfusion h
  | noneV => exact absurd h (by simp [orZero])
  | strV p' i' s' =>
      by_cases hs : s' = ""
      · exfalso; revert h; simp only [orZero, if_pos hs]; intro h; exact PyVal.noConfusion h
      · revert h; simp only [orZero, if_neg hs]
        intro h
        cases h
        exact hs

theorem get_size_default_str (p : Option ℚ) (i : Option ℤ) (s : String) (hs : s ≠ "") :
    get_size_coefficient DEFAULT_CONFIG (.strV p i s) =
      .error (.typeErr "'>=' not supported between instances of these types") := by
  unfold get_size_coefficient
  simp only [orZero, if_neg hs]
  rfl

theorem getKey_constants_default :
    getKey DEFAULT_CONFIG.constants "constants" = .ok DEFAULT_CONSTANTS := rfl

theorem getKey_vol_factor_default :
    getKey DEFAULT_CONSTANTS.vol_weight_factor "vol_weight_factor" = .ok 6000 := rfl

theorem getKey_full_rate_default :
    getKey DEFAULT_CONSTANTS.full_vehicle_rate "full_vehicle_rate" = .ok 4076.05 := rfl

theorem getKey_vinh_base_default :
    getKey DEFAULT_CONSTANTS.delivery_vinh_base "delivery_vinh_base" = .ok 5445000 := rfl

theorem getKey_vinh_rate_default :
    getKey DEFAULT_CONSTANTS.delivery_vinh_rate "delivery_vinh_rate" = .ok 0.18 := rfl

theorem get_km_default (v : ℚ) :
    get_km_coefficient DEFAULT_CONFIG v =
      .ok (bandScan v 0.35 (sortPairs DEFAULT_KM_BANDS)) := rfl

theorem get_size_default_num (v : ℚ) :
    get_size_coefficient DEFAULT_CONFIG (.numV v) =
      .ok (bandScan v 1 (sortPairs DEFAULT_SIZE_BANDS)) := by
  unfold get_size_coefficient
  rw [orZero_numV]
  rfl

theorem get_zone_default (n : String) :
    get_zone_coefficient DEFAULT_CONFIG n = .ok ((DEFAULT_ZONE_COEFS.lookup n).getD 1) := rfl

theorem get_goods_default (n : String) :
    get_goods_coefficient DEFAULT_CONFIG n = .ok ((DEFAULT_GOODS_COEFS.lookup n).getD 1) := rfl

theorem get_vehicle_default (n : String) :
    get_vehicle_coefficient DEFAULT_CONFIG n = .ok ((DEFAULT_VEHICLE_COEFS.lookup n).getD 1) := rfl

theorem intTrunc_intCast (n : ℤ) : intTrunc ((n : ℤ) : ℚ) = n := by
  unfold intTrunc
  by_cases h : (0 : ℚ) ≤ (n : ℚ)
  · rw [if_pos h, Int.floor_intCast]
  · rw [if_neg h, show (-(n : ℚ)) = ((-n : ℤ) : ℚ) by push_cast; ring, Int.floor_intCast]
    omega

theorem pyRound_intCast (n : ℤ) : pyRound ((n : ℤ) : ℚ) = n := by
  unfold pyRound
  rw [Int.floor_intCast]
  rw [if_pos (by norm_num : (n : ℚ) - (n : ℚ) < 1/2)]

theorem pyRound_add_int_even (x : ℚ) (n : ℤ) (hn : n % 2 = 0) :
    pyRound (x + (n : ℚ)) = pyRound x + n := by
  unfold pyRound
  rw [Int.floor_add_int]
  have hfrac : x + (n : ℚ) - ((⌊x⌋ + n : ℤ) : ℚ) = x - (⌊x⌋ : ℚ) := by push_cast; ring
  rw [hfrac]
  by_cases h1 : x - (⌊x⌋ : ℚ) < 1/2
  · rw [if_pos h1, if_pos h1]
  · rw [if_neg h1, if_neg h1]
    by_cases h2 : 1/2 < x - (⌊x⌋ : ℚ)
    · rw [if_pos h2, if_pos h2]; omega
    · rw [if_neg h2, if_neg h2]
      by_cases h3 : ⌊x⌋ % 2 = 0
      · rw [if_pos (by omega : (⌊x⌋ + n) % 2 = 0), if_pos h3]
      · rw [if_neg (by omega : ¬ (⌊x⌋ + n) % 2 = 0), if_neg h3]; omega

theorem pyRoundQ_add_int_even (x : ℚ) (z : ℤ) (hz : z % 2 = 0) :
    pyRoundQ (x + (z : ℚ)) = pyRoundQ x + (z : ℚ) := by
  rw [pyRoundQ, pyRoundQ, pyRound_add_int_even x z hz]
  push_cast
  ring

theorem pyRoundQ_intCast (z : ℤ) : pyRoundQ ((z : ℤ) : ℚ) = (z : ℚ) := by
  rw [pyRoundQ, pyRound_intCast]

theorem pymax3_num (a b c : ℚ) :
    pymax3 (.numV a) (.numV b) (.numV c) = .ok (.numV (max (max a b) c)) := by
  unfold pymax3 pyGt
  by_cases h1 : a < b
  · by_cases h2 : b < c
    · simp [Bind.bind, Except.bind, h1, h2, pure, Except.pure,
        max_eq_right (le_of_lt h1), max_eq_right (le_of_lt h2)]
    · simp [Bind.bind, Except.bind, h1, h2, pure, Except.pure,
        max_eq_right (le_of_lt h1), max_eq_left (not_lt.mp h2)]
  · by_cases h2 : a < c
    · simp [Bind.bind, Except.bind, h1, h2, pure, Except.pure,
        max_eq_left (not_lt.mp h1), max_eq_right (le_of_lt h2)]
    · simp [Bind.bind, Except.bind, h1, h2, pure, Except.pure,
        max_eq_left (not_lt.mp h1), max_eq_left (not_lt.mp h2)]

theorem orZero_pyOfOpt (o : Option ℚ) : orZero (pyOfOpt o) = .numV (o.getD 0) := by
  cases o with
  | none => rfl
  | some q => rw [pyOfOpt, orZero_numV, Option.getD_some]

theorem weight_from_dims_opt (dL dW dH : Option ℚ) :
    calculate_weight_from_dimensions (pyOfOpt dL) (pyOfOpt dW) (pyOfOpt dH) 6000 =
      dimWeight dL dW dH := by
  rcases dL with _ | l <;> rcases dW with _ | w <;> rcases dH with _ | h <;>
    simp [calculate_weight_from_dimensions, pyOfOpt, dimWeight, floatOpt]

theorem calc_default_success
    (distance_km actual_weight_kg quantity vol_length_cm vol_width_cm vol_height_cm : PyVal)
    (pickup_zone_name delivery_zone_name delivery_point goods_type vehicle_type : String)
    (proposed_coefficient : PyVal)
    (h : (calculate_shipping_rate DEFAULT_CONFIG distance_km actual_weight_kg quantity
        vol_length_cm vol_width_cm vol_height_cm pickup_zone_name delivery_zone_name
        delivery_point goods_type vehicle_type proposed_coefficient).error = none) :
    ∃ (distance aw pc md : ℚ) (qty : ℤ),
      float_ distance_km = .ok distance ∧
      (match actual_weight_kg with | .noneV => Except.ok 0 | v => float_ v) = .ok aw ∧
      (match quantity with | .noneV => Except.ok 1 | v => int_ v) = .ok qty ∧
      (match proposed_coefficient with | .noneV => Except.ok 1 | v => float_ v) = .ok pc ∧
      pymax3 (orZero vol_length_cm) (orZero vol_width_cm) (orZero vol_height_cm) =
        .ok (.numV md) ∧
      ∃ km zp zd gc vc sc : ℚ,
        get_km_coefficient DEFAULT_CONFIG distance = .ok km ∧
        get_zone_coefficient DEFAULT_CONFIG pickup_zone_name = .ok zp ∧
        get_zone_coefficient DEFAULT_CONFIG delivery_zone_name = .ok zd ∧
        get_goods_coefficient DEFAULT_CONFIG goods_type = .ok gc ∧
        get_vehicle_coefficient DEFAULT_CONFIG vehicle_type = .ok vc ∧
        get_size_coefficient DEFAULT_CONFIG (.numV md) = .ok sc ∧
        calculate_shipping_rate DEFAULT_CONFIG distance_km actual_weight_kg quantity
            vol_length_cm vol_width_cm vol_height_cm pickup_zone_name delivery_zone_name
            delivery_point goods_type vehicle_type proposed_coefficient =
          buildResults
            (chargeableWeight (aw * (qty : ℚ))
              (calculate_weight_from_dimensions vol_length_cm vol_width_cm vol_height_cm 6000 *
                (qty : ℚ)))
            (calculate_weight_from_dimensions vol_length_cm vol_width_cm vol_height_cm 6000 *
              (qty : ℚ))
            (aw * (qty : ℚ)) km (max zp zd) gc vc sc pc
            (if delivery_point ≠ "" ∧ pyStrip (pyLower delivery_point) = "tp vinh"
             then 5445000 * 0.18 else 0) := by
  rcases h1 : float_ distance_km with e | distance
  · exact absurd h (by simp [calculate_shipping_rate, h1, step])
  rcases h2 : (match actual_weight_kg with | .noneV => Except.ok 0 | v => float_ v) with e | aw
  · exact absurd h (by simp [calculate_shipping_rate, h1, h2, step])
  rcases h3 : (match quantity with | .noneV => Except.ok 1 | v => int_ v) with e | qty
  · exact absurd h (by simp [calculate_shipping_rate, h1, h2, h3, step])
  rcases h4 : (match proposed_coefficient with | .noneV => Except.ok 1 | v => float_ v)
    with e | pc
  · exact absurd h (by simp [calculate_shipping_rate, h1, h2, h3, h4, step])
  rcases h5 : pymax3 (orZero vol_length_cm) (orZero vol_width_cm) (orZero vol_height_cm)
    with e | m
  · exact absurd h (by simp [calculate_shipping_rate, h1, h2, h3, h4, h5, step,
      getKey_constants_default, getKey_vol_factor_default, get_km_default,
      get_zone_default, get_goods_default, get_vehicle_default])
  cases m with
  | noneV =>
      exfalso
      rcases pymax3_mem h5 with hm | hm | hm <;> exact orZero_ne_noneV _ hm.symm
  | strV p i s =>
      exfalso
      have hsne : s ≠ "" := by
        rcases pymax3_mem h5 with hm | hm | hm <;> exact orZero_str_ne_empty hm.symm
      exact absurd h (by simp [calculate_shipping_rate, h1, h2, h3, h4, h5, step,
        getKey_constants_default, getKey_vol_factor_default, get_km_default,
        get_zone_default, get_goods_default, get_vehicle_default,
        get_size_default_str p i s hsne])
  | numV q =>
      refine ⟨distance, aw, pc, q, qty, rfl, h2, h3, h4, rfl, _, _, _, _, _, _,
        get_km_default distance, get_zone_default _, get_zone_default _,
        get_goods_default _, get_vehicle_default _, get_size_default_num q, ?_⟩
      by_cases hdp : delivery_point ≠ "" ∧ pyStrip (pyLower delivery_point) = "tp vinh"
      · simp only [calculate_shipping_rate, h1, h2, h3, h4, h5, step_ok,
          getKey_constants_default, getKey_vol_factor_default, get_km_default,
          get_zone_default, get_goods_default, get_vehicle_default, get_size_default_num,
          if_pos hdp, finishCalc, getKey_full_rate_default, getKey_vinh_base_default,
          getKey_vinh_rate_default, roundMonetary, buildResults]
        rfl
      · simp only [calculate_shipping_rate, h1, h2, h3, h4, h5, step_ok,
          getKey_constants_default, getKey_vol_factor_default, get_km_default,
          get_zone_default, get_goods_default, get_vehicle_default, get_size_default_num,
          if_neg hdp, finishCalc, getKey_full_rate_default, getKey_vinh_base_default,
          getKey_vinh_rate_default, roundMonetary, buildResults]
        rfl

theorem calc_default_numeric (d aw pcq : ℚ) (n : ℤ) (dL dW dH : Option ℚ)
    (pickup delivery dp goods vehicle : String) :
    calculate_shipping_rate DEFAULT_CONFIG (.numV d) (.numV aw) (.numV (n : ℚ))
        (pyOfOpt dL) (pyOfOpt dW) (pyOfOpt dH) pickup delivery dp goods vehicle (.numV pcq) =
      buildResults
        (chargeableWeight (aw * (n : ℚ)) (dimWeight dL dW dH * (n : ℚ)))
        (dimWeight dL dW dH * (n : ℚ)) (aw * (n : ℚ))
        (bandScan d 0.35 (sortPairs DEFAULT_KM_BANDS))
        (max ((DEFAULT_ZONE_COEFS.lookup pickup).getD 1)
          ((DEFAULT_ZONE_COEFS.lookup delivery).getD 1))
        ((DEFAULT_GOODS_COEFS.lookup goods).getD 1)
        ((DEFAULT_VEHICLE_COEFS.lookup vehicle).getD 1)
        (bandScan (max (max (dL.getD 0) (dW.getD 0)) (dH.getD 0)) 1
          (sortPairs DEFAULT_SIZE_BANDS))
        pcq
        (if dp ≠ "" ∧ pyStrip (pyLower dp) = "tp vinh" then 5445000 * 0.18 else 0) := by
  have hmax : pymax3 (orZero (pyOfOpt dL)) (orZero (pyOfOpt dW)) (orZero (pyOfOpt dH)) =
      .ok (.numV (max (max (dL.getD 0) (dW.getD 0)) (dH.getD 0))) := by
    rw [orZero_pyOfOpt, orZero_pyOfOpt, orZero_pyOfOpt]; exact pymax3_num _ _ _
  by_cases hdp : dp ≠ "" ∧ pyStrip (pyLower dp) = "tp vinh"
  · simp only [calculate_shipping_rate, float_, int_, step_ok, hmax,
      getKey_constants_default, getKey_vol_factor_default, get_km_default, get_zone_default,
      get_goods_default, get_vehicle_default, get_size_default_num, intTrunc_intCast,
      weight_from_dims_opt, if_pos hdp, finishCalc, getKey_full_rate_default,
      getKey_vinh_base_default, getKey_vinh_rate_default, roundMonetary, buildResults]
    rfl
  · simp only [calculate_shipping_rate, float_, int_, step_ok, hmax,
      getKey_constants_default, getKey_vol_factor_default, get_km_default, get_zone_default,
      get_goods_default, get_vehicle_default, get_size_default_num, intTrunc_intCast,
      weight_from_dims_opt, if_neg hdp, finishCalc, getKey_full_rate_default,
      getKey_vinh_base_default, getKey_vinh_rate_default, roundMonetary, buildResults]
    rfl

theorem round2_div20 (k : ℤ) : round2 ((k : ℚ) / 20) = (k : ℚ) / 20 := by
  unfold round2
  rw [show (100 : ℚ) * ((k : ℚ) / 20) = ((5 * k : ℤ) : ℚ) by push_cast; ring, pyRound_intCast]
  push_cast
  ring

theorem applyMatch_confidence {α : Type} (o : Option α) (f : α → ParsedQuery)
    (r : ParsedQuery) (c : ℚ) (hf : ∀ g, (f g).confidence = r.confidence + c) :
    (applyMatch o f r).confidence = r.confidence + (if o.isSome then c else 0) := by
  cases o with
  | none => simp [applyMatch]
  | some g => simp [applyMatch, hf g]

theorem if_isSome_bounds {α : Type} (o : Option α) (c : ℚ) (hc : 0 ≤ c) :
    0 ≤ (if o.isSome then c else 0) ∧ (if o.isSome then c else 0) ≤ c := by
  cases o <;> simp [hc]

theorem if_isSome_div20 {α : Type} (o : Option α) (c : ℤ) :
    (if o.isSome then ((c : ℚ) / 20) else 0) = ((if o.isSome then c else 0 : ℤ) : ℚ) / 20 := by
  cases o <;> simp

theorem errOk_convert (e : PyExc) : errOk (some (convertExc e)) := by
  cases e with
  | valErr m => exact Or.inr (Or.inl ⟨m, rfl⟩)
  | typeErr m => exact Or.inr (Or.inl ⟨m, rfl⟩)
  | keyErr k => exact Or.inr (Or.inr (Or.inl ⟨k, rfl⟩))
  | otherErr m => exact Or.inr (Or.inr (Or.inr ⟨m, rfl⟩))
  | attrErr n => exact Or.inr (Or.inr (Or.inr ⟨n, rfl⟩))

theorem step_errOk {α : Type} {r : Results} {x : Except PyExc α} {k : α → Results}
    (hk : ∀ a, errOk ((k a).error)) : errOk ((step r x k).error) := by
  cases x with
  | error e => exact errOk_convert e
  | ok a => exact hk a

/-! Claim theorems. -/

/-- C1: whenever `calculate_shipping_rate` succeeds (no error), there are a
chargeable weight `cw`, coefficients `c` and raw amounts `bf` (base freight)
and `df` (delivery fee) such that the zone coefficient is the maximum of the
pickup and delivery zone coefficients, `bf` is the product
cw × km × zone × goods × size × proposed × baseRate with the base rate from
`get_base_rate`, the full-vehicle amount uses the vehicle coefficient and the
full-vehicle rate 4076.05 instead of size and base rate, the stored total is
the stored base freight plus the stored delivery fee, the customer price
equals the total cost, and each of the six monetary fields stores the
rounded-to-nearest-integer value of its raw amount. -/
theorem claim_C1
    (distance_km actual_weight_kg quantity vol_length_cm vol_width_cm vol_height_cm : PyVal)
    (pickup_zone_name delivery_zone_name delivery_point goods_type vehicle_type : String)
    (proposed_coefficient : PyVal)
    (h : (calculate_shipping_rate DEFAULT_CONFIG distance_km actual_weight_kg quantity
        vol_length_cm vol_width_cm vol_height_cm pickup_zone_name delivery_zone_name
        delivery_point goods_type vehicle_type proposed_coefficient).error = none) :
    ∃ (cw bf df zp zd : ℚ) (c : Coefficients),
      (calculate_shipping_rate DEFAULT_CONFIG distance_km actual_weight_kg quantity
          vol_length_cm vol_width_cm vol_height_cm pickup_zone_name delivery_zone_name
          delivery_point goods_type vehicle_type
          proposed_coefficient).chargeable_weight = some cw ∧
      (calculate_shipping_rate DEFAULT_CONFIG distance_km actual_weight_kg quantity
          vol_length_cm vol_width_cm vol_height_cm pickup_zone_name delivery_zone_name
          delivery_point goods_type vehicle_type
          proposed_coefficient).coefficients = some c ∧
      get_zone_coefficient DEFAULT_CONFIG pickup_zone_name = .ok zp ∧
      get_zone_coefficient DEFAULT_CONFIG delivery_zone_name = .ok zd ∧
      c.zone = max zp zd ∧
      bf = cw * c.km * c.zone * c.goods * c.size * c.proposed * get_base_rate cw ∧
      (calculate_shipping_rate DEFAULT_CONFIG distance_km actual_weight_kg quantity
          vol_length_cm vol_width_cm vol_height_cm pickup_zone_name delivery_zone_name
          delivery_point goods_type vehicle_type
          proposed_coefficient).base_freight = some (pyRoundQ bf) ∧
      (calculate_shipping_rate DEFAULT_CONFIG distance_km actual_weight_kg quantity
          vol_length_cm vol_width_cm vol_height_cm pickup_zone_name delivery_zone_name
          delivery_point goods_type vehicle_type
          proposed_coefficient).delivery_fee = some (pyRoundQ df) ∧
      (calculate_shipping_rate DEFAULT_CONFIG distance_km actual_weight_kg quantity
          vol_length_cm vol_width_cm vol_height_cm pickup_zone_name delivery_zone_name
          delivery_point goods_type vehicle_type
          proposed_coefficient).total_cost = some (pyRoundQ bf + pyRoundQ df) ∧
      (calculate_shipping_rate DEFAULT_CONFIG distance_km actual_weight_kg quantity
          vol_length_cm vol_width_cm vol_height_cm pickup_zone_name delivery_zone_name
          delivery_point goods_type vehicle_type
          proposed_coefficient).shared_vehicle_cost = some (pyRoundQ (bf * 0.9)) ∧
      (calculate_shipping_rate DEFAULT_CONFIG distance_km actual_weight_kg quantity
          vol_length_cm vol_width_cm vol_height_cm pickup_zone_name delivery_zone_name
          delivery_point goods_type vehicle_type
          proposed_coefficient).full_vehicle_cost =
        some (pyRoundQ (cw * c.km * c.zone * c.goods * c.vehicle * c.proposed * 4076.05)) ∧
      (calculate_shipping_rate DEFAULT_CONFIG distance_km actual_weight_kg quantity
          vol_length_cm vol_width_cm vol_height_cm pickup_zone_name delivery_zone_name
          delivery_point goods_type vehicle_type
          proposed_coefficient).customer_price =
        (calculate_shipping_rate DEFAULT_CONFIG distance_km actual_weight_kg quantity
          vol_length_cm vol_width_cm vol_height_cm pickup_zone_name delivery_zone_name
          delivery_point goods_type vehicle_type proposed_coefficient).total_cost := by
  obtain ⟨distance, aw, pc, md, qty, h1, h2, h3, h4, h5, km, zp, zd, gc, vc, sc,
    hkm, hzp, hzd, hgc, hvc, hsc, hres⟩ :=
    calc_default_success distance_km actual_weight_kg quantity vol_length_cm vol_width_cm
      vol_height_cm pickup_zone_name delivery_zone_name delivery_point goods_type
      vehicle_type proposed_coefficient h
  rw [hres]
  set cw := chargeableWeight (aw * (qty : ℚ))
    (calculate_weight_from_dimensions vol_length_cm vol_width_cm vol_height_cm 6000 *
      (qty : ℚ)) with hcw
  set df := (if delivery_point ≠ "" ∧ pyStrip (pyLower delivery_point) = "tp vinh"
    then (5445000 : ℚ) * 0.18 else 0) with hdf
  have hdfint : ∃ z : ℤ, df = (z : ℚ) ∧ z % 2 = 0 := by
    rw [hdf]
    by_cases hdp : delivery_point ≠ "" ∧ pyStrip (pyLower delivery_point) = "tp vinh"
    · exact ⟨980100, by rw [if_pos hdp]; norm_num, by norm_num⟩
    · exact ⟨0, by rw [if_neg hdp]; norm_num, by norm_num⟩
  obtain ⟨z, hz, hzev⟩ := hdfint
  refine ⟨cw, cw * km * max zp zd * gc * sc * pc * get_base_rate cw, df, zp, zd,
    ⟨km, max zp zd, gc, vc, sc, pc⟩, rfl, rfl, hzp, hzd, rfl, rfl, rfl, rfl, ?_, rfl, rfl, rfl⟩
  simp only [buildResults]
  rw [hz, pyRoundQ_add_int_even _ z hzev, pyRoundQ_intCast]

/-- Witness for C1 at a concrete successful request: 156 km, 1000 kg, one
package, no dimensions, default zones, goods and vehicle, multiplier 1. -/
theorem claim_C1_witness :
    (calculate_shipping_rate DEFAULT_CONFIG (.numV 156) (.numV 1000) (.numV 1) .noneV .noneV
        .noneV "Vùng còn lại" "Vùng còn lại" "" "Hàng đóng hộp tiêu dùng" "Tải"
        (.numV 1)).error = none ∧
    ∃ (cw bf df zp zd : ℚ) (c : Coefficients),
      (calculate_shipping_rate DEFAULT_CONFIG (.numV 156) (.numV 1000) (.numV 1) .noneV .noneV
          .noneV "Vùng còn lại" "Vùng còn lại" "" "Hàng đóng hộp tiêu dùng" "Tải"
          (.numV 1)).chargeable_weight = some cw ∧
      (calculate_shipping_rate DEFAULT_CONFIG (.numV 156) (.numV 1000) (.numV 1) .noneV .noneV
          .noneV "Vùng còn lại" "Vùng còn lại" "" "Hàng đóng hộp tiêu dùng" "Tải"
          (.numV 1)).coefficients = some c ∧
      get_zone_coefficient DEFAULT_CONFIG "Vùng còn lại" = .ok zp ∧
      get_zone_coefficient DEFAULT_CONFIG "Vùng còn lại" = .ok zd ∧
      c.zone = max zp zd ∧
      bf = cw * c.km * c.zone * c.goods * c.size * c.proposed * get_base_rate cw ∧
      (calculate_shipping_rate DEFAULT_CONFIG (.numV 156) (.numV 1000) (.numV 1) .noneV .noneV
          .noneV "Vùng còn lại" "Vùng còn lại" "" "Hàng đóng hộp tiêu dùng" "Tải"
          (.numV 1)).base_freight = some (pyRoundQ bf) ∧
      (calculate_shipping_rate DEFAULT_CONFIG (.numV 156) (.numV 1000) (.numV 1) .noneV .noneV
          .noneV "Vùng còn lại" "Vùng còn lại" "" "Hàng đóng hộp tiêu dùng" "Tải"
          (.numV 1)).delivery_fee = some (pyRoundQ df) ∧
      (calculate_shipping_rate DEFAULT_CONFIG (.numV 156) (.numV 1000) (.numV 1) .noneV .noneV
          .noneV "Vùng còn lại" "Vùng còn lại" "" "Hàng đóng hộp tiêu dùng" "Tải"
          (.numV 1)).total_cost = some (pyRoundQ bf + pyRoundQ df) ∧
      (calculate_shipping_rate DEFAULT_CONFIG (.numV 156) (.numV 1000) (.numV 1) .noneV .noneV
          .noneV "Vùng còn lại" "Vùng còn lại" "" "Hàng đóng hộp tiêu dùng" "Tải"
          (.numV 1)).shared_vehicle_cost = some (pyRoundQ (bf * 0.9)) ∧
      (calculate_shipping_rate DEFAULT_CONFIG (.numV 156) (.numV 1000) (.numV 1) .noneV .noneV
          .noneV "Vùng còn lại" "Vùng còn lại" "" "Hàng đóng hộp tiêu dùng" "Tải"
          (.numV 1)).full_vehicle_cost =
        some (pyRoundQ (cw * c.km * c.zone * c.goods * c.vehicle * c.proposed * 4076.05)) ∧
      (calculate_shipping_rate DEFAULT_CONFIG (.numV 156) (.numV 1000) (.numV 1) .noneV .noneV
          .noneV "Vùng còn lại" "Vùng còn lại" "" "Hàng đóng hộp tiêu dùng" "Tải"
          (.numV 1)).customer_price =
        (calculate_shipping_rate DEFAULT_CONFIG (.numV 156) (.numV 1000) (.numV 1) .noneV .noneV
          .noneV "Vùng còn lại" "Vùng còn lại" "" "Hàng đóng hộp tiêu dùng" "Tải"
          (.numV 1)).total_cost :=
  ⟨by decide, claim_C1 (.numV 156) (.numV 1000) (.numV 1) .noneV .noneV .noneV
    "Vùng còn lại" "Vùng còn lại" "" "Hàng đóng hộp tiêu dùng" "Tải" (.numV 1) (by decide)⟩

/-- Counterexample for C2 as stated: with no dimensions, actual weight 0 and
quantity 1, the chargeable weight is clamped to 1, so it does not equal
actual weight × quantity (= 0) exactly. -/
theorem claim_C2_counterexample :
    (calculate_shipping_rate DEFAULT_CONFIG (.numV 10) (.numV 0) (.numV 1) .noneV .noneV
        .noneV "Vùng còn lại" "Vùng còn lại" "" "Hàng đóng hộp tiêu dùng" "Tải"
        (.numV 1)).error = none ∧
    (calculate_shipping_rate DEFAULT_CONFIG (.numV 10) (.numV 0) (.numV 1) .noneV .noneV
        .noneV "Vùng còn lại" "Vùng còn lại" "" "Hàng đóng hộp tiêu dùng" "Tải"
        (.numV 1)).volumetric_weight = some 0 ∧
    (calculate_shipping_rate DEFAULT_CONFIG (.numV 10) (.numV 0) (.numV 1) .noneV .noneV
        .noneV "Vùng còn lại" "Vùng còn lại" "" "Hàng đóng hộp tiêu dùng" "Tải"
        (.numV 1)).chargeable_weight = some 1 ∧
    (1 : ℚ) ≠ 0 * 1 := by
  refine ⟨by decide, by decide, by decide, by norm_num⟩

/-- C2, amended: for structured numeric requests the volumetric weight is
(l × w × h)/6000 × quantity when all three dimensions are present and 0
otherwise, the chargeable weight is max(actualTotal, volumetricTotal) when
the volumetric total is positive, else the actual total, clamped to 1 when
non-positive; in particular with no dimensions the chargeable weight equals
actual weight × quantity exactly whenever that product is positive
(otherwise it is clamped to 1). -/
theorem claim_C2_amended_thm (d aw pcq : ℚ) (n : ℤ) (dL dW dH : Option ℚ)
    (pickup delivery dp goods vehicle : String) :
    (calculate_shipping_rate DEFAULT_CONFIG (.numV d) (.numV aw) (.numV (n : ℚ))
        (pyOfOpt dL) (pyOfOpt dW) (pyOfOpt dH) pickup delivery dp goods vehicle
        (.numV pcq)).volumetric_weight =
      some ((match dL, dW, dH with
             | some l, some w, some h => l * w * h / 6000
             | _, _, _ => 0) * (n : ℚ)) ∧
    (calculate_shipping_rate DEFAULT_CONFIG (.numV d) (.numV aw) (.numV (n : ℚ))
        (pyOfOpt dL) (pyOfOpt dW) (pyOfOpt dH) pickup delivery dp goods vehicle
        (.numV pcq)).chargeable_weight =
      some (if (if 0 < dimWeight dL dW dH * (n : ℚ)
                then max (aw * (n : ℚ)) (dimWeight dL dW dH * (n : ℚ))
                else aw * (n : ℚ)) ≤ 0
            then 1
            else (if 0 < dimWeight dL dW dH * (n : ℚ)
                  then max (aw * (n : ℚ)) (dimWeight dL dW dH * (n : ℚ))
                  else aw * (n : ℚ))) ∧
    ((dL = none ∧ dW = none ∧ dH = none) → 0 < aw * (n : ℚ) →
      (calculate_shipping_rate DEFAULT_CONFIG (.numV d) (.numV aw) (.numV (n : ℚ))
          (pyOfOpt dL) (pyOfOpt dW) (pyOfOpt dH) pickup delivery dp goods vehicle
          (.numV pcq)).chargeable_weight = some (aw * (n : ℚ))) := by
  rw [calc_default_numeric]
  refine ⟨rfl, rfl, ?_⟩
  rintro ⟨rfl, rfl, rfl⟩ hpos
  simp only [buildResults, chargeableWeight, dimWeight, zero_mul, lt_irrefl, if_false,
    not_le.mpr hpos, if_neg (not_le.mpr hpos)]

/-- Witness for C2 at a concrete dimensionless request: 1000 kg in 2 packages
gives chargeable weight exactly 1000 × 2. -/
theorem claim_C2_witness :
    (calculate_shipping_rate DEFAULT_CONFIG (.numV 156) (.numV 1000) (.numV ((2 : ℤ) : ℚ))
        .noneV .noneV .noneV "Vùng còn lại" "Vùng còn lại" "" "Hàng đóng hộp tiêu dùng"
        "Tải" (.numV 1)).chargeable_weight = some ((1000 : ℚ) * ((2 : ℤ) : ℚ)) :=
  (claim_C2_amended_thm 156 1000 1 2 none none none "Vùng còn lại" "Vùng còn lại" ""
    "Hàng đóng hộp tiêu dùng" "Tải").2.2 ⟨rfl, rfl, rfl⟩ (by norm_num)

/-- C10: with some but not all dimensions provided, the volumetric weight is
0 (all-or-none), yet the size coefficient is looked up from the largest of
the provided dimensions with absent dimensions treated as 0, and the
chargeable weight is the clamped actual weight × quantity (the dimension
contributes nothing to it). -/
theorem claim_C10_thm (d aw pcq : ℚ) (n : ℤ) (dL dW dH : Option ℚ)
    (pickup delivery dp goods vehicle : String)
    (hmissing : ¬ (dL ≠ none ∧ dW ≠ none ∧ dH ≠ none)) :
    (calculate_shipping_rate DEFAULT_CONFIG (.numV d) (.numV aw) (.numV (n : ℚ))
        (pyOfOpt dL) (pyOfOpt dW) (pyOfOpt dH) pickup delivery dp goods vehicle
        (.numV pcq)).volumetric_weight = some 0 ∧
    ∃ c : Coefficients,
      (calculate_shipping_rate DEFAULT_CONFIG (.numV d) (.numV aw) (.numV (n : ℚ))
          (pyOfOpt dL) (pyOfOpt dW) (pyOfOpt dH) pickup delivery dp goods vehicle
          (.numV pcq)).coefficients = some c ∧
      get_size_coefficient DEFAULT_CONFIG
        (.numV (max (max (dL.getD 0) (dW.getD 0)) (dH.getD 0))) = .ok c.size ∧
      (calculate_shipping_rate DEFAULT_CONFIG (.numV d) (.numV aw) (.numV (n : ℚ))
          (pyOfOpt dL) (pyOfOpt dW) (pyOfOpt dH) pickup delivery dp goods vehicle
          (.numV pcq)).chargeable_weight = some (chargeableWeight (aw * (n : ℚ)) 0) := by
  have hdw : dimWeight dL dW dH = 0 := by
    rcases dL with _ | l <;> rcases dW with _ | w <;> rcases dH with _ | h <;>
      first
        | rfl
        | exact absurd ⟨by simp, by simp, by simp⟩ hmissing
  rw [calc_default_numeric]
  refine ⟨?_, ⟨_, _, _, _, _, _⟩, rfl, get_size_default_num _, ?_⟩
  · simp only [buildResults, hdw, zero_mul]
  · simp only [buildResults, hdw, zero_mul]

/-- Witness for C10: a single 250 cm dimension yields size coefficient 1.2
(above 1) while the chargeable weight stays at the actual 500 kg. -/
theorem claim_C10_witness :
    ¬ ((some (250 : ℚ)) ≠ none ∧ (none : Option ℚ) ≠ none ∧ (none : Option ℚ) ≠ none) ∧
    ((calculate_shipping_rate DEFAULT_CONFIG (.numV 100) (.numV 500) (.numV ((1 : ℤ) : ℚ))
        (pyOfOpt (some 250)) (pyOfOpt none) (pyOfOpt none) "Vùng còn lại" "Vùng còn lại" ""
        "Hàng đóng hộp tiêu dùng" "Tải" (.numV 1)).volumetric_weight = some 0 ∧
      ∃ c : Coefficients,
        (calculate_shipping_rate DEFAULT_CONFIG (.numV 100) (.numV 500) (.numV ((1 : ℤ) : ℚ))
            (pyOfOpt (some 250)) (pyOfOpt none) (pyOfOpt none) "Vùng còn lại" "Vùng còn lại"
            "" "Hàng đóng hộp tiêu dùng" "Tải" (.numV 1)).coefficients = some c ∧
        get_size_coefficient DEFAULT_CONFIG
          (.numV (max (max ((some (250 : ℚ)).getD 0) ((none : Option ℚ).getD 0))
            ((none : Option ℚ).getD 0))) = .ok c.size ∧
        (calculate_shipping_rate DEFAULT_CONFIG (.numV 100) (.numV 500) (.numV ((1 : ℤ) : ℚ))
            (pyOfOpt (some 250)) (pyOfOpt none) (pyOfOpt none) "Vùng còn lại" "Vùng còn lại"
            "" "Hàng đóng hộp tiêu dùng" "Tải" (.numV 1)).chargeable_weight =
          some (chargeableWeight (500 * ((1 : ℤ) : ℚ)) 0)) ∧
    (calculate_shipping_rate DEFAULT_CONFIG (.numV 100) (.numV 500) (.numV ((1 : ℤ) : ℚ))
        (pyOfOpt (some 250)) (pyOfOpt none) (pyOfOpt none) "Vùng còn lại" "Vùng còn lại" ""
        "Hàng đóng hộp tiêu dùng" "Tải" (.numV 1)).coefficients.map
      Coefficients.size = some (6/5) ∧
    (1 : ℚ) < 6/5 ∧
    (calculate_shipping_rate DEFAULT_CONFIG (.numV 100) (.numV 500) (.numV ((1 : ℤ) : ℚ))
        (pyOfOpt (some 250)) (pyOfOpt none) (pyOfOpt none) "Vùng còn lại" "Vùng còn lại" ""
        "Hàng đóng hộp tiêu dùng" "Tải" (.numV 1)).chargeable_weight = some 500 :=
  ⟨by simp, claim_C10_thm 100 500 1 1 (some 250) none none "Vùng còn lại" "Vùng còn lại" ""
      "Hàng đóng hộp tiêu dùng" "Tải" (by simp),
    by decide, by norm_num, by decide⟩

/-- Counterexample for C6 as stated: a non-numeric string dimension makes the
size-coefficient step fail after the weights were already stored, so the
returned value carries the chargeable, volumetric and actual weights
alongside the error descriptor. -/
theorem claim_C6_counterexample :
    (calculate_shipping_rate DEFAULT_CONFIG (.numV 100) (.numV 500) (.numV 1)
        (.strV none none "abc") .noneV .noneV "Vùng còn lại" "Vùng còn lại" ""
        "Hàng đóng hộp tiêu dùng" "Tải" (.numV 1)).error =
      some (.validationError "'>' not supported between instances of these types") ∧
    (calculate_shipping_rate DEFAULT_CONFIG (.numV 100) (.numV 500) (.numV 1)
        (.strV none none "abc") .noneV .noneV "Vùng còn lại" "Vùng còn lại" ""
        "Hàng đóng hộp tiêu dùng" "Tải" (.numV 1)).chargeable_weight = some 500 ∧
    (calculate_shipping_rate DEFAULT_CONFIG (.numV 100) (.numV 500) (.numV 1)
        (.strV none none "abc") .noneV .noneV "Vùng còn lại" "Vùng còn lại" ""
        "Hàng đóng hộp tiêu dùng" "Tải" (.numV 1)).volumetric_weight = some 0 ∧
    (calculate_shipping_rate DEFAULT_CONFIG (.numV 100) (.numV 500) (.numV 1)
        (.strV none none "abc") .noneV .noneV "Vùng còn lại" "Vùng còn lại" ""
        "Hàng đóng hộp tiêu dùng" "Tải" (.numV 1)).actual_weight = some 500 := by
  refine ⟨by decide, by decide, by decide, by decide⟩

/-- C6, amended: under the embedded default configuration, a failing request
returns the error descriptor with no coefficients and no monetary fields
(base freight, delivery fee, total, shared- and full-vehicle cost, customer
price are all absent); the weight fields computed before the failure point
may however be present alongside the error. -/
theorem claim_C6_amended_thm
    (distance_km actual_weight_kg quantity vol_length_cm vol_width_cm vol_height_cm : PyVal)
    (pickup_zone_name delivery_zone_name delivery_point goods_type vehicle_type : String)
    (proposed_coefficient : PyVal) (e : PyErr)
    (h : (calculate_shipping_rate DEFAULT_CONFIG distance_km actual_weight_kg quantity
        vol_length_cm vol_width_cm vol_height_cm pickup_zone_name delivery_zone_name
        delivery_point goods_type vehicle_type proposed_coefficient).error = some e) :
    (calculate_shipping_rate DEFAULT_CONFIG distance_km actual_weight_kg quantity
        vol_length_cm vol_width_cm vol_height_cm pickup_zone_name delivery_zone_name
        delivery_point goods_type vehicle_type proposed_coefficient).coefficients = none ∧
    (calculate_shipping_rate DEFAULT_CONFIG distance_km actual_weight_kg quantity
        vol_length_cm vol_width_cm vol_height_cm pickup_zone_name delivery_zone_name
        delivery_point goods_type vehicle_type proposed_coefficient).base_freight = none ∧
    (calculate_shipping_rate DEFAULT_CONFIG distance_km actual_weight_kg quantity
        vol_length_cm vol_width_cm vol_height_cm pickup_zone_name delivery_zone_name
        delivery_point goods_type vehicle_type proposed_coefficient).delivery_fee = none ∧
    (calculate_shipping_rate DEFAULT_CONFIG distance_km actual_weight_kg quantity
        vol_length_cm vol_width_cm vol_height_cm pickup_zone_name delivery_zone_name
        delivery_point goods_type vehicle_type proposed_coefficient).total_cost = none ∧
    (calculate_shipping_rate DEFAULT_CONFIG distance_km actual_weight_kg quantity
        vol_length_cm vol_width_cm vol_height_cm pickup_zone_name delivery_zone_name
        delivery_point goods_type vehicle_type
        proposed_coefficient).shared_vehicle_cost = none ∧
    (calculate_shipping_rate DEFAULT_CONFIG distance_km actual_weight_kg quantity
        vol_length_cm vol_width_cm vol_height_cm pickup_zone_name delivery_zone_name
        delivery_point goods_type vehicle_type
        proposed_coefficient).full_vehicle_cost = none ∧
    (calculate_shipping_rate DEFAULT_CONFIG distance_km actual_weight_kg quantity
        vol_length_cm vol_width_cm vol_height_cm pickup_zone_name delivery_zone_name
        delivery_point goods_type vehicle_type
        proposed_coefficient).customer_price = none := by
  rcases h1 : float_ distance_km with e1 | distance
  · simp [calculate_shipping_rate, h1, step]
  rcases h2 : (match actual_weight_kg with | .noneV => Except.ok 0 | v => float_ v) with e2 | aw
  · simp [calculate_shipping_rate, h1, h2, step]
  rcases h3 : (match quantity with | .noneV => Except.ok 1 | v => int_ v) with e3 | qty
  · simp [calculate_shipping_rate, h1, h2, h3, step]
  rcases h4 : (match proposed_coefficient with | .noneV => Except.ok 1 | v => float_ v)
    with e4 | pc
  · simp [calculate_shipping_rate, h1, h2, h3, h4, step]
  rcases h5 : pymax3 (orZero vol_length_cm) (orZero vol_width_cm) (orZero vol_height_cm)
    with e5 | m
  · simp [calculate_shipping_rate, h1, h2, h3, h4, h5, step,
      getKey_constants_default, getKey_vol_factor_default, get_km_default,
      get_zone_default, get_goods_default, get_vehicle_default]
  cases m with
  | noneV =>
      exfalso
      rcases pymax3_mem h5 with hm | hm | hm <;> exact orZero_ne_noneV _ hm.symm
  | strV p i s =>
      have hsne : s ≠ "" := by
        rcases pymax3_mem h5 with hm | hm | hm <;> exact orZero_str_ne_empty hm.symm
      simp [calculate_shipping_rate, h1, h2, h3, h4, h5, step,
        getKey_constants_default, getKey_vol_factor_default, get_km_default,
        get_zone_default, get_goods_default, get_vehicle_default,
        get_size_default_str p i s hsne]
  | numV q =>
      exfalso
      by_cases hdp : delivery_point ≠ "" ∧ pyStrip (pyLower delivery_point) = "tp vinh"
      · rw [show (calculate_shipping_rate DEFAULT_CONFIG distance_km actual_weight_kg quantity
            vol_length_cm vol_width_cm vol_height_cm pickup_zone_name delivery_zone_name
            delivery_point goods_type vehicle_type proposed_coefficient).error = none by
          simp only [calculate_shipping_rate, h1, h2, h3, h4, h5, step_ok,
            getKey_constants_default, getKey_vol_factor_default, get_km_default,
            get_zone_default, get_goods_default, get_vehicle_default, get_size_default_num,
            if_pos hdp, finishCalc, getKey_full_rate_default, getKey_vinh_base_default,
            getKey_vinh_rate_default, roundMonetary]] at h
        exact Option.noConfusion h
      · rw [show (calculate_shipping_rate DEFAULT_CONFIG distance_km actual_weight_kg quantity
            vol_length_cm vol_width_cm vol_height_cm pickup_zone_name delivery_zone_name
            delivery_point goods_type vehicle_type proposed_coefficient).error = none by
          simp only [calculate_shipping_rate, h1, h2, h3, h4, h5, step_ok,
            getKey_constants_default, getKey_vol_factor_default, get_km_default,
            get_zone_default, get_goods_default, get_vehicle_default, get_size_default_num,
            if_neg hdp, finishCalc, getKey_full_rate_default, getKey_vinh_base_default,
            getKey_vinh_rate_default, roundMonetary]] at h
        exact Option.noConfusion h

/-- Witness for C6 (amended): the counterexample input above fails, and its
result indeed carries no coefficients and no monetary fields. -/
theorem claim_C6_witness :
    (calculate_shipping_rate DEFAULT_CONFIG (.numV 100) (.numV 500) (.numV 1)
        (.strV none none "abc") .noneV .noneV "Vùng còn lại" "Vùng còn lại" ""
        "Hàng đóng hộp tiêu dùng" "Tải" (.numV 1)).coefficients = none ∧
    (calculate_shipping_rate DEFAULT_CONFIG (.numV 100) (.numV 500) (.numV 1)
        (.strV none none "abc") .noneV .noneV "Vùng còn lại" "Vùng còn lại" ""
        "Hàng đóng hộp tiêu dùng" "Tải" (.numV 1)).base_freight = none ∧
    (calculate_shipping_rate DEFAULT_CONFIG (.numV 100) (.numV 500) (.numV 1)
        (.strV none none "abc") .noneV .noneV "Vùng còn lại" "Vùng còn lại" ""
        "Hàng đóng hộp tiêu dùng" "Tải" (.numV 1)).delivery_fee = none ∧
    (calculate_shipping_rate DEFAULT_CONFIG (.numV 100) (.numV 500) (.numV 1)
        (.strV none none "abc") .noneV .noneV "Vùng còn lại" "Vùng còn lại" ""
        "Hàng đóng hộp tiêu dùng" "Tải" (.numV 1)).total_cost = none ∧
    (calculate_shipping_rate DEFAULT_CONFIG (.numV 100) (.numV 500) (.numV 1)
        (.strV none none "abc") .noneV .noneV "Vùng còn lại" "Vùng còn lại" ""
        "Hàng đóng hộp tiêu dùng" "Tải" (.numV 1)).shared_vehicle_cost = none ∧
    (calculate_shipping_rate DEFAULT_CONFIG (.numV 100) (.numV 500) (.numV 1)
        (.strV none none "abc") .noneV .noneV "Vùng còn lại" "Vùng còn lại" ""
        "Hàng đóng hộp tiêu dùng" "Tải" (.numV 1)).full_vehicle_cost = none ∧
    (calculate_shipping_rate DEFAULT_CONFIG (.numV 100) (.numV 500) (.numV 1)
        (.strV none none "abc") .noneV .noneV "Vùng còn lại" "Vùng còn lại" ""
        "Hàng đóng hộp tiêu dùng" "Tải" (.numV 1)).customer_price = none :=
  claim_C6_amended_thm (.numV 100) (.numV 500) (.numV 1) (.strV none none "abc") .noneV
    .noneV "Vùng còn lại" "Vùng còn lại" "" "Hàng đóng hộp tiêu dùng" "Tải" (.numV 1)
    (.validationError "'>' not supported between instances of these types") (by decide)

/-- C8: on every successful request the delivery surcharge equals the fixed
product 5445000 × 0.18 exactly when the delivery-point text, lowercased and
trimmed, equals "tp vinh", and is 0 otherwise — independent of distance and
all other inputs, over which the statement quantifies. -/
theorem claim_C8
    (distance_km actual_weight_kg quantity vol_length_cm vol_width_cm vol_height_cm : PyVal)
    (pickup_zone_name delivery_zone_name delivery_point goods_type vehicle_type : String)
    (proposed_coefficient : PyVal)
    (h : (calculate_shipping_rate DEFAULT_CONFIG distance_km actual_weight_kg quantity
        vol_length_cm vol_width_cm vol_height_cm pickup_zone_name delivery_zone_name
        delivery_point goods_type vehicle_type proposed_coefficient).error = none) :
    ((calculate_shipping_rate DEFAULT_CONFIG distance_km actual_weight_kg quantity
        vol_length_cm vol_width_cm vol_height_cm pickup_zone_name delivery_zone_name
        delivery_point goods_type vehicle_type proposed_coefficient).delivery_fee =
        some (5445000 * 0.18) ↔ pyStrip (pyLower delivery_point) = "tp vinh") ∧
    (pyStrip (pyLower delivery_point) ≠ "tp vinh" →
      (calculate_shipping_rate DEFAULT_CONFIG distance_km actual_weight_kg quantity
          vol_length_cm vol_width_cm vol_height_cm pickup_zone_name delivery_zone_name
          delivery_point goods_type vehicle_type proposed_coefficient).delivery_fee =
        some 0) := by
  obtain ⟨distance, aw, pc, md, qty, h1, h2, h3, h4, h5, km, zp, zd, gc, vc, sc,
    hkm, hzp, hzd, hgc, hvc, hsc, hres⟩ :=
    calc_default_success distance_km actual_weight_kg quantity vol_length_cm vol_width_cm
      vol_height_cm pickup_zone_name delivery_zone_name delivery_point goods_type
      vehicle_type proposed_coefficient h
  rw [hres]
  have hfee : pyRoundQ (5445000 * 0.18) = 5445000 * 0.18 := by decide
  have hzero : pyRoundQ 0 = 0 := by decide
  by_cases hdp : delivery_point ≠ "" ∧ pyStrip (pyLower delivery_point) = "tp vinh"
  · simp [buildResults, if_pos hdp, hfee, hdp.2, hdp.1]
  · have hne : pyStrip (pyLower delivery_point) ≠ "tp vinh" := by
      intro hc
      apply hdp
      refine ⟨?_, hc⟩
      intro hdp0
      rw [hdp0] at hc
      exact absurd hc (by decide)
    simp only [buildResults, if_neg hdp, hzero]
    exact ⟨⟨fun hx => absurd (Option.some.inj hx) (by norm_num), fun hx => absurd hx hne⟩,
      fun _ => by trivial⟩

/-- Witness for C8: delivery point "  TP Vinh " (case and whitespace noise)
triggers the surcharge on a successful request. -/
theorem claim_C8_witness :
    (calculate_shipping_rate DEFAULT_CONFIG (.numV 156) (.numV 1000) (.numV 1) .noneV .noneV
        .noneV "Vùng còn lại" "Vùng còn lại" "  TP Vinh " "Hàng đóng hộp tiêu dùng" "Tải"
        (.numV 1)).error = none ∧
    (((calculate_shipping_rate DEFAULT_CONFIG (.numV 156) (.numV 1000) (.numV 1) .noneV
        .noneV .noneV "Vùng còn lại" "Vùng còn lại" "  TP Vinh " "Hàng đóng hộp tiêu dùng"
        "Tải" (.numV 1)).delivery_fee = some (5445000 * 0.18) ↔
        pyStrip (pyLower "  TP Vinh ") = "tp vinh") ∧
      (pyStrip (pyLower "  TP Vinh ") ≠ "tp vinh" →
        (calculate_shipping_rate DEFAULT_CONFIG (.numV 156) (.numV 1000) (.numV 1) .noneV
            .noneV .noneV "Vùng còn lại" "Vùng còn lại" "  TP Vinh " "Hàng đóng hộp tiêu dùng"
            "Tải" (.numV 1)).delivery_fee = some 0)) :=
  ⟨by decide, claim_C8 (.numV 156) (.numV 1000) (.numV 1) .noneV .noneV .noneV
    "Vùng còn lại" "Vùng còn lại" "  TP Vinh " "Hàng đóng hộp tiêu dùng" "Tải" (.numV 1)
    (by decide)⟩

/-- C5: for every configuration (including ones with missing keys) and every
input (including non-numeric strings and `None`), `calculate_shipping_rate`
returns a results value whose error slot is either empty or one of the three
structured errors, and the conversion clauses send every numeric failure
(`ValueError`/`TypeError`) to the validation error and every `KeyError` to
the configuration error.  Totality of the Lean function is the model of
"never raises": every exception is absorbed by the handler. -/
theorem claim_C5 (cfg : Config)
    (distance_km actual_weight_kg quantity vol_length_cm vol_width_cm vol_height_cm : PyVal)
    (pickup_zone_name delivery_zone_name delivery_point goods_type vehicle_type : String)
    (proposed_coefficient : PyVal) :
    errOk ((calculate_shipping_rate cfg distance_km actual_weight_kg quantity
        vol_length_cm vol_width_cm vol_height_cm pickup_zone_name delivery_zone_name
        delivery_point goods_type vehicle_type proposed_coefficient).error) ∧
    (∀ m, convertExc (.valErr m) = .validationError m) ∧
    (∀ m, convertExc (.typeErr m) = .validationError m) ∧
    (∀ k, convertExc (.keyErr k) = .configError k) := by
  refine ⟨?_, fun m => rfl, fun m => rfl, fun k => rfl⟩
  simp only [calculate_shipping_rate]
  apply step_errOk; intro distance
  apply step_errOk; intro aw
  apply step_errOk; intro qty
  apply step_errOk; intro pc
  apply step_errOk; intro consts
  apply step_errOk; intro factor
  apply step_errOk; intro km
  apply step_errOk; intro zp
  apply step_errOk; intro zd
  apply step_errOk; intro gc
  apply step_errOk; intro vc
  apply step_errOk; intro md
  apply step_errOk; intro sc
  split
  · apply step_errOk; intro consts2
    apply step_errOk; intro dvb
    apply step_errOk; intro dvr
    simp only [finishCalc]
    apply step_errOk; intro consts3
    apply step_errOk; intro fvr
    exact Or.inl rfl
  · simp only [finishCalc]
    apply step_errOk; intro consts3
    apply step_errOk; intro fvr
    exact Or.inl rfl

/-- Counterexample for C4 as stated: when all ten patterns match, the
confidence is 1.45, outside [0, 1] — the per-field increments sum to more
than 1 and the code does not cap them. -/
theorem claim_C4_counterexample :
    (parse_user_query ⟨some "A", some "B", some "C", some (2, "tấn"), some 3,
      some (10, 20, 30), some 100, some "X", some "Y", some (1.2 : ℚ)⟩).confidence = 1.45 ∧
    ¬ ((1.45 : ℚ) ≤ 1) := by
  refine ⟨by decide, by norm_num⟩

/-- C4, amended: the confidence equals the sum of the fixed per-field
increments of the matched fields (0.2 for origin, destination, weight and
distance; 0.15 for dimensions; 0.1 for the rest) and lies in [0, 1.45], the
sum of all increments — not in [0, 1]. -/
theorem claim_C4_amended_thm (m : MatchOutcomes) :
    (parse_user_query m).confidence =
      (if m.from_match.isSome then (0.2 : ℚ) else 0) +
      (if m.to_match.isSome then 0.2 else 0) +
      (if m.delivery_match.isSome then 0.1 else 0) +
      (if m.weight_match.isSome then 0.2 else 0) +
      (if m.quantity_match.isSome then 0.1 else 0) +
      (if m.dim_match.isSome then 0.15 else 0) +
      (if m.distance_match.isSome then 0.2 else 0) +
      (if m.goods_match.isSome then 0.1 else 0) +
      (if m.vehicle_match.isSome then 0.1 else 0) +
      (if m.coef_match.isSome then 0.1 else 0) ∧
    0 ≤ (parse_user_query m).confidence ∧
    (parse_user_query m).confidence ≤ 1.45 := by
  have hconf : (parse_user_query m).confidence =
      round2 ((if m.from_match.isSome then (0.2 : ℚ) else 0) +
        (if m.to_match.isSome then 0.2 else 0) +
        (if m.delivery_match.isSome then 0.1 else 0) +
        (if m.weight_match.isSome then 0.2 else 0) +
        (if m.quantity_match.isSome then 0.1 else 0) +
        (if m.dim_match.isSome then 0.15 else 0) +
        (if m.distance_match.isSome then 0.2 else 0) +
        (if m.goods_match.isSome then 0.1 else 0) +
        (if m.vehicle_match.isSome then 0.1 else 0) +
        (if m.coef_match.isSome then 0.1 else 0)) := by
    simp only [parse_user_query]
    rw [applyMatch_confidence _ _ _ 0.1 (fun g => rfl)]
    rw [applyMatch_confidence _ _ _ 0.1 (fun g => rfl)]
    rw [applyMatch_confidence _ _ _ 0.1 (fun g => rfl)]
    rw [applyMatch_confidence _ _ _ 0.2 (fun g => rfl)]
    rw [applyMatch_confidence _ _ _ 0.15 (fun g => rfl)]
    rw [applyMatch_confidence _ _ _ 0.1 (fun g => rfl)]
    rw [applyMatch_confidence _ _ _ 0.2 (fun g => rfl)]
    rw [applyMatch_confidence _ _ _ 0.1 (fun g => rfl)]
    rw [applyMatch_confidence _ _ _ 0.2 (fun g => rfl)]
    rw [applyMatch_confidence _ _ _ 0.2 (fun g => rfl)]
    norm_num
  have hsum : (if m.from_match.isSome then (0.2 : ℚ) else 0) +
      (if m.to_match.isSome then 0.2 else 0) +
      (if m.delivery_match.isSome then 0.1 else 0) +
      (if m.weight_match.isSome then 0.2 else 0) +
      (if m.quantity_match.isSome then 0.1 else 0) +
      (if m.dim_match.isSome then 0.15 else 0) +
      (if m.distance_match.isSome then 0.2 else 0) +
      (if m.goods_match.isSome then 0.1 else 0) +
      (if m.vehicle_match.isSome then 0.1 else 0) +
      (if m.coef_match.isSome then 0.1 else 0) =
      (((if m.from_match.isSome then (4 : ℤ) else 0) +
        (if m.to_match.isSome then 4 else 0) +
        (if m.delivery_match.isSome then 2 else 0) +
        (if m.weight_match.isSome then 4 else 0) +
        (if m.quantity_match.isSome then 2 else 0) +
        (if m.dim_match.isSome then 3 else 0) +
        (if m.distance_match.isSome then 4 else 0) +
        (if m.goods_match.isSome then 2 else 0) +
        (if m.vehicle_match.isSome then 2 else 0) +
        (if m.coef_match.isSome then 2 else 0) : ℤ) : ℚ) / 20 := by
    rw [show (0.2 : ℚ) = ((4 : ℤ) : ℚ) / 20 by norm_num,
      show (0.1 : ℚ) = ((2 : ℤ) : ℚ) / 20 by norm_num,
      show (0.15 : ℚ) = ((3 : ℤ) : ℚ) / 20 by norm_num]
    simp only [if_isSome_div20]
    push_cast
    ring
  have heq : (parse_user_query m).confidence =
      (if m.from_match.isSome then (0.2 : ℚ) else 0) +
      (if m.to_match.isSome then 0.2 else 0) +
      (if m.delivery_match.isSome then 0.1 else 0) +
      (if m.weight_match.isSome then 0.2 else 0) +
      (if m.quantity_match.isSome then 0.1 else 0) +
      (if m.dim_match.isSome then 0.15 else 0) +
      (if m.distance_match.isSome then 0.2 else 0) +
      (if m.goods_match.isSome then 0.1 else 0) +
      (if m.vehicle_match.isSome then 0.1 else 0) +
      (if m.coef_match.isSome then 0.1 else 0) := by
    rw [hconf, hsum, round2_div20, ← hsum]
  have b1 := if_isSome_bounds m.from_match (0.2 : ℚ) (by norm_num)
  have b2 := if_isSome_bounds m.to_match (0.2 : ℚ) (by norm_num)
  have b3 := if_isSome_bounds m.delivery_match (0.1 : ℚ) (by norm_num)
  have b4 := if_isSome_bounds m.weight_match (0.2 : ℚ) (by norm_num)
  have b5 := if_isSome_bounds m.quantity_match (0.1 : ℚ) (by norm_num)
  have b6 := if_isSome_bounds m.dim_match (0.15 : ℚ) (by norm_num)
  have b7 := if_isSome_bounds m.distance_match (0.2 : ℚ) (by norm_num)
  have b8 := if_isSome_bounds m.goods_match (0.1 : ℚ) (by norm_num)
  have b9 := if_isSome_bounds m.vehicle_match (0.1 : ℚ) (by norm_num)
  have b10 := if_isSome_bounds m.coef_match (0.1 : ℚ) (by norm_num)
  refine ⟨heq, ?_, ?_⟩ <;> rw [heq] <;>
    linarith [b1.1, b1.2, b2.1, b2.2, b3.1, b3.2, b4.1, b4.2, b5.1, b5.2, b6.1, b6.2,
      b7.1, b7.2, b8.1, b8.2, b9.1, b9.2, b10.1, b10.2]

/-- Counterexample for C9 as stated: a request whose `km` field is a
non-numeric string fails at `float(data.get("km", 0))` with a `ValueError`
before `calc.calculate_cost` is ever reached, so not every request raises an
`AttributeError`. -/
theorem claim_C9_counterexample :
    baogia ⟨none, none, none, some (.strV none none "abc"), none, none⟩ =
      .error (.valErr "could not convert string to float: abc") ∧
    PyExc.valErr "could not convert string to float: abc" ≠
      PyExc.attrErr "calculate_cost" := by
  refine ⟨rfl, by decide⟩

/-- C9, amended: the `/baogia` handler never returns a computed quote; every
request on which the three numeric coercions succeed raises `AttributeError`
for the missing `calculate_cost` attribute (absent from the attributes of
`ShippingCalculator`), while requests with malformed numeric fields fail in
the coercions first. -/
theorem claim_C9_amended_thm (req : BaogiaRequest) :
    "calculate_cost" ∉ shippingCalculatorAttrs ∧
    (∀ u : Unit, baogia req ≠ .ok u) ∧
    (∀ (km : ℚ) (sokien : ℤ) (tl : ℚ),
      float_ (req.km.getD (.numV 0)) = .ok km →
      int_ (req.sokien.getD (.numV 1)) = .ok sokien →
      float_ (req.trongluong.getD (.numV 0)) = .ok tl →
      baogia req = .error (.attrErr "calculate_cost")) := by
  refine ⟨by decide, ?_, ?_⟩
  · intro u
    unfold baogia
    rcases h1 : float_ (req.km.getD (.numV 0)) with e1 | km
    · simp [Bind.bind, Except.bind, h1]
    rcases h2 : int_ (req.sokien.getD (.numV 1)) with e2 | sokien
    · simp [Bind.bind, Except.bind, h1, h2]
    rcases h3 : float_ (req.trongluong.getD (.numV 0)) with e3 | tl
    · simp [Bind.bind, Except.bind, h1, h2, h3]
    · simp [Bind.bind, Except.bind, h1, h2, h3, shippingCalculatorAttrs, throw,
        throwThe, MonadExceptOf.throw]
  · intro km sokien tl h1 h2 h3
    unfold baogia
    simp [Bind.bind, Except.bind, h1, h2, h3, shippingCalculatorAttrs, throw,
      throwThe, MonadExceptOf.throw]

/-- Witness for C9: the empty request (all fields absent, numeric defaults)
coerces successfully and indeed fails with the `AttributeError`. -/
theorem claim_C9_witness :
    baogia ⟨none, none, none, none, none, none⟩ = .error (.attrErr "calculate_cost") :=
  (claim_C9_amended_thm ⟨none, none, none, none, none, none⟩).2.2 0 1 0 rfl rfl rfl

/-- C3: for every nonempty band table sorted ascending by threshold and every
input value, both `get_km_coefficient` and `get_size_coefficient` return,
without error, the coefficient of the highest band whose threshold is at most
the value (stated through the decomposition `pre ++ (t, c) :: post` with all
of `post` above the value); when the value is below every threshold they
return the lowest band's coefficient; and for every value at or beyond the
last threshold they return the last band's coefficient. -/
theorem claim_C3 (cfg : Config) (bands : List (ℚ × ℚ)) (v : ℚ)
    (hne : bands ≠ [])
    (hs : List.Sorted (fun a b : ℚ × ℚ => a.1 ≤ b.1) bands) :
    (cfg.km_coefficients = some bands →
      (∀ pre t c post, bands = pre ++ (t, c) :: post → t ≤ v → (∀ b ∈ post, v < b.1) →
         get_km_coefficient cfg v = .ok c) ∧
      ((∀ b ∈ bands, v < b.1) → get_km_coefficient cfg v = .ok (bands.head hne).2) ∧
      ((bands.getLast hne).1 ≤ v → get_km_coefficient cfg v = .ok (bands.getLast hne).2)) ∧
    (cfg.size_coefficients = some bands →
      (∀ pre t c post, bands = pre ++ (t, c) :: post → t ≤ v → (∀ b ∈ post, v < b.1) →
         get_size_coefficient cfg (.numV v) = .ok c) ∧
      ((∀ b ∈ bands, v < b.1) → get_size_coefficient cfg (.numV v) = .ok (bands.head hne).2) ∧
      ((bands.getLast hne).1 ≤ v →
         get_size_coefficient cfg (.numV v) = .ok (bands.getLast hne).2)) := by
  have hlastmem : bands = bands.dropLast ++
      ((bands.getLast hne).1, (bands.getLast hne).2) :: [] := by
    rw [Prod.mk.eta]
    exact (List.dropLast_append_getLast hne).symm
  have hscan_high : ∀ pre t c post, bands = pre ++ (t, c) :: post → t ≤ v →
      (∀ b ∈ post, v < b.1) → bandScan v (bands.head hne).2 bands = c := by
    intro pre t c post hdec htv hpost
    generalize (bands.head hne).2 = init
    rw [hdec]
    exact bandScan_last_le pre t c post init (hdec ▸ hs) htv hpost
  constructor
  · intro hkm
    have heq := get_km_coefficient_eq hkm hne hs v
    refine ⟨fun pre t c post hdec htv hpost => ?_, fun hbelow => ?_, fun hlast => ?_⟩
    · rw [heq, hscan_high pre t c post hdec htv hpost]
    · rw [heq, bandScan_of_forall_lt _ hbelow]
    · rw [heq, hscan_high bands.dropLast _ _ [] hlastmem hlast (by simp)]
  · intro hsz
    have heq := get_size_coefficient_eq hsz hne hs v
    refine ⟨fun pre t c post hdec htv hpost => ?_, fun hbelow => ?_, fun hlast => ?_⟩
    · rw [heq, hscan_high pre t c post hdec htv hpost]
    · rw [heq, bandScan_of_forall_lt _ hbelow]
    · rw [heq, hscan_high bands.dropLast _ _ [] hlastmem hlast (by simp)]

/-- Witness for C3: the default tables are nonempty and sorted; a distance
below every threshold yields the lowest km coefficient, and a dimension
beyond the last size threshold yields the last size coefficient. -/
theorem claim_C3_witness :
    DEFAULT_KM_BANDS ≠ ([] : List (ℚ × ℚ)) ∧
    List.Sorted (fun a b : ℚ × ℚ => a.1 ≤ b.1) DEFAULT_KM_BANDS ∧
    get_km_coefficient DEFAULT_CONFIG (-1) = .ok 0.35 ∧
    get_size_coefficient DEFAULT_CONFIG (.numV 5000) = .ok 2.0 := by
  refine ⟨by decide, by decide, ?_, ?_⟩
  · exact ((claim_C3 DEFAULT_CONFIG DEFAULT_KM_BANDS (-1) (by decide) (by decide)).1
      rfl).2.1 (by decide)
  · exact ((claim_C3 DEFAULT_CONFIG DEFAULT_SIZE_BANDS 5000 (by decide) (by decide)).2
      rfl).2.2 (by decide)

/-- C7, amended: with the extra hypothesis that the coefficients are also
non-decreasing along the table (true of both default tables), the lookup is
monotone non-decreasing in the value, and a value exactly at a threshold
takes that threshold's coefficient (thresholds strictly ascending). -/
theorem claim_C7_amended_thm (cfg : Config) (bands : List (ℚ × ℚ))
    (hne : bands ≠ [])
    (hkey : List.Pairwise (fun a b : ℚ × ℚ => a.1 < b.1) bands)
    (hcoef : List.Sorted (fun a b : ℚ × ℚ => a.2 ≤ b.2) bands)
    (hkm : cfg.km_coefficients = some bands) :
    (∀ v w : ℚ, v ≤ w →
       ∃ x y, get_km_coefficient cfg v = .ok x ∧ get_km_coefficient cfg w = .ok y ∧ x ≤ y) ∧
    (∀ t c, (t, c) ∈ bands → get_km_coefficient cfg t = .ok c) := by
  have hs : List.Sorted (fun a b : ℚ × ℚ => a.1 ≤ b.1) bands :=
    hkey.imp fun h => le_of_lt h
  constructor
  · intro v w hvw
    refine ⟨_, _, get_km_coefficient_eq hkm hne hs v, get_km_coefficient_eq hkm hne hs w, ?_⟩
    exact bandScan_mono hvw bands _ hcoef (head_coef_le_all hne hcoef)
  · intro t c hmem
    rw [get_km_coefficient_eq hkm hne hs t, bandScan_at_threshold bands _ hkey hmem]

/-- Counterexample for C7 as stated: a table sorted (even strictly) ascending
by threshold on which the lookup is strictly decreasing, because the claim
does not require the coefficients themselves to be non-decreasing. -/
theorem claim_C7_counterexample :
    List.Pairwise (fun a b : ℚ × ℚ => a.1 < b.1) [((0 : ℚ), (5 : ℚ)), (10, 1)] ∧
    (0 : ℚ) ≤ 10 ∧
    get_km_coefficient ⟨some [(0, 5), (10, 1)], none, none, none, none, none⟩ 0 = .ok 5 ∧
    get_km_coefficient ⟨some [(0, 5), (10, 1)], none, none, none, none, none⟩ 10 = .ok 1 ∧
    ¬ ((5 : ℚ) ≤ 1) := by
  refine ⟨by decide, by norm_num, by decide, by decide, by norm_num⟩

/-- Witness for C7: the default km table satisfies both sortedness
hypotheses; monotonicity and the at-threshold value at 150 follow. -/
theorem claim_C7_witness :
    List.Pairwise (fun a b : ℚ × ℚ => a.1 < b.1) DEFAULT_KM_BANDS ∧
    List.Sorted (fun a b : ℚ × ℚ => a.2 ≤ b.2) DEFAULT_KM_BANDS ∧
    (∃ x y, get_km_coefficient DEFAULT_CONFIG 100 = .ok x ∧
        get_km_coefficient DEFAULT_CONFIG 200 = .ok y ∧ x ≤ y) ∧
    get_km_coefficient DEFAULT_CONFIG 150 = .ok 0.45 := by
  have h := claim_C7_amended_thm DEFAULT_CONFIG DEFAULT_KM_BANDS (by decide) (by decide)
    (by decide) rfl
  exact ⟨by decide, by decide, h.1 100 200 (by norm_num), h.2 150 0.45 (by decide)⟩

end GHN
